import Mathlib

/-!
# A verification development for the `atem-rs` ATEM switcher client library

This file gives a shallow embedding, in Lean 4, of the protocol core of the
`atem-rs` Rust crate: the packet codec (`src/packet.rs`), the session engine
loop (`src/lib.rs`), the command-record splitter and decoder
(`src/command.rs`, `src/parser.rs`), and the record body decoders
(`src/source.rs`, `src/systeminfo.rs`, `src/multiview.rs`, `src/tally.rs`,
`src/upstreamkeyer.rs`).

Modelling conventions:
* A byte buffer (`bytes::Bytes`) is a `List Nat` of byte values; multi-byte
  reads are big-endian, as in the `bytes` crate.
* Machine integers are `Nat` (or `Int` for `i16` reads) with explicit
  `% 2^w` truncation where the Rust code can overflow.
* Reader operations that panic in Rust (`get_u16` past the end of the
  buffer, `split_to` beyond the remaining length, integer-underflow on
  `size - 8`, `Option::unwrap` of `None`) are modelled by `Option`, with
  `none` denoting the panic (which aborts the engine task).
* Fallible (recoverable) parsing is modelled with `Except`.
* `f32` fields (`KeyerBaseProperties.mask_*`, which divide an `i16` by
  `1000.0`) are modelled as exact rationals; no claim depends on their
  values.
-/

namespace Atem

/-! ## Byte-buffer reader primitives (the `bytes` crate operations used) -/

/-- `Bytes::get_u8`: read one byte; panics (`none`) on an empty buffer. -/
def getU8 : List Nat → Option (Nat × List Nat)
  | [] => none
  | b :: r => some (b, r)

/-- `Bytes::get_u16`: read a big-endian `u16`; panics (`none`) if fewer
than two bytes remain. -/
def getU16 : List Nat → Option (Nat × List Nat)
  | b0 :: b1 :: r => some (b0 * 256 + b1, r)
  | _ => none

/-- `Bytes::get_u32`: read a big-endian `u32`; panics (`none`) if fewer
than four bytes remain. -/
def getU32 : List Nat → Option (Nat × List Nat)
  | b0 :: b1 :: b2 :: b3 :: r =>
      some (((b0 * 256 + b1) * 256 + b2) * 256 + b3, r)
  | _ => none

/-- `Bytes::get_i16`: read a big-endian `i16` (two's complement); panics
(`none`) if fewer than two bytes remain. -/
def getI16 : List Nat → Option (Int × List Nat)
  | b0 :: b1 :: r =>
      let v := b0 * 256 + b1
      some (if v % 65536 < 32768 then ((v % 65536 : Nat) : Int)
            else ((v % 65536 : Nat) : Int) - 65536, r)
  | _ => none

/-- `Bytes::split_to(n)`: split off the first `n` bytes; panics (`none`)
when `n` exceeds the remaining length. -/
def splitTo (n : Nat) (l : List Nat) : Option (List Nat × List Nat) :=
  if n ≤ l.length then some (l.take n, l.drop n) else none

/-- `BufMut::put_u16`: the two big-endian bytes of a `u16` value. -/
def u16be (x : Nat) : List Nat := [x / 256 % 256, x % 256]

/-! ## Packet codec (`src/packet.rs`) -/

/-- `HEADER_SIZE` from `src/packet.rs`. -/
def HEADER_SIZE : Nat := 12

namespace PacketFlag

/-- `PacketFlag::ACK_REQUEST`. -/
def ACK_REQUEST : Nat := 0x01
/-- `PacketFlag::HELLO`. -/
def HELLO : Nat := 0x02
/-- `PacketFlag::RESEND`. -/
def RESEND : Nat := 0x04
/-- `PacketFlag::ACK`. -/
def ACK : Nat := 0x10

/-- The union of the declared flag bits; `bitflags` rejects anything
outside this mask in `from_bits`. -/
def KNOWN : Nat := 0x17

/-- `bitflags`-generated `PacketFlag::from_bits`: `some` exactly when every
set bit is a declared flag bit. -/
def from_bits (b : Nat) : Option Nat :=
  if b &&& KNOWN = b then some b else none

end PacketFlag

/-- `Packet` from `src/packet.rs`: `flags` is `Option<PacketFlag>` (the
flag bits when present), `payload` is `Option<Bytes>`. -/
structure Packet where
  flags : Option Nat
  uid : Nat
  ack_id : Nat
  id : Nat
  payload : Option (List Nat)
deriving DecidableEq, Repr

namespace Packet

/-- `Packet::new`. -/
def new (flags : Option Nat) (uid ack_id id : Nat)
    (payload : Option (List Nat)) : Packet :=
  ⟨flags, uid, ack_id, id, payload⟩

/-- `Packet::new_ack`. -/
def new_ack (uid ack_id id : Nat) : Packet :=
  new (some PacketFlag.ACK) uid ack_id id none

/-- `Packet::serialize`.  The `u16` arithmetic of the source
(`(flags.bits() as u16) << 11`, `payload_size + HEADER_SIZE`, `p.len() as
u16`) is reproduced with explicit `% 2^16` truncation. -/
def serialize (p : Packet) : List Nat :=
  let payload_size := (match p.payload with
    | some pl => pl.length
    | none => 0) % 65536
  let size_flags := match p.flags with
    | some f => ((f <<< 11) % 65536) ||| ((payload_size + HEADER_SIZE) % 65536)
    | none => (payload_size + HEADER_SIZE) % 65536
  u16be size_flags ++ u16be p.uid ++ u16be p.ack_id ++ [0, 0, 0, 0] ++
    u16be p.id ++ (match p.payload with | some pl => pl | none => [])

/-- `Packet::deserialize`, on a buffer that may hold further packets: the
unconsumed suffix is returned alongside the packet.  `none` is the panic
of `get_u16`/`get_u32` past the end, of `split_to` beyond the remaining
bytes, or of the `u16` underflow in `size - HEADER_SIZE` when the size
field is below 12. -/
def deserialize (packet : List Nat) : Option (Packet × List Nat) :=
  match getU16 packet with
  | none => none
  | some (flag_size, b1) =>
    let flags := (flag_size &&& 0xf800) >>> 11
    let size := flag_size &&& 0x07ff
    match getU16 b1 with
    | none => none
    | some (uid, b2) =>
      match getU16 b2 with
      | none => none
      | some (ack_id, b3) =>
        match getU32 b3 with
        | none => none
        | some (_, b4) =>
          match getU16 b4 with
          | none => none
          | some (id, b5) =>
            if size < HEADER_SIZE then none
            else
              let payload_size := size - HEADER_SIZE
              if payload_size > 0 then
                match splitTo payload_size b5 with
                | none => none
                | some (pl, rest) =>
                  some (⟨PacketFlag.from_bits flags, uid, ack_id, id, some pl⟩, rest)
              else
                some (⟨PacketFlag.from_bits flags, uid, ack_id, id, none⟩, b5)

/-- `Packet::ack_request`. -/
def ack_request (p : Packet) : Bool :=
  match p.flags with
  | some f => f &&& PacketFlag.ACK_REQUEST ≠ 0
  | none => false

/-- `Packet::is_hello`. -/
def is_hello (p : Packet) : Bool :=
  match p.flags with
  | some f => f &&& PacketFlag.HELLO ≠ 0
  | none => false

/-- `Packet::new_hello_packet`. -/
def new_hello_packet : Packet :=
  new (some PacketFlag.HELLO) 0x1337 0x0000 0x0000
    (some [0x01, 0x00, 0x00, 0x00, 0x00, 0x00, 0x00, 0x00])

end Packet

/-! ## String parsing (`src/parser.rs`) and UTF-8 validation

`parse_str` takes the prefix of the field up to the first NUL byte
(`splitn(2, |b| *b == b'\0').next()`) and validates it as UTF-8
(`String::from_utf8`).  A decoded string is kept as its byte list. -/

/-- A UTF-8 continuation byte (`0x80 ..= 0xBF`). -/
def isUtf8Cont (c : Nat) : Bool := 0x80 ≤ c ∧ c ≤ 0xBF

/-- Rust's `String::from_utf8` validity check (RFC 3629: no overlong
forms, no surrogates, no code points above `U+10FFFF`). -/
def isValidUtf8 : List Nat → Bool
  | [] => true
  | b :: rest =>
    if b ≤ 0x7F then isValidUtf8 rest
    else if 0xC2 ≤ b ∧ b ≤ 0xDF then
      match rest with
      | c1 :: r => isUtf8Cont c1 && isValidUtf8 r
      | [] => false
    else if b = 0xE0 then
      match rest with
      | c1 :: c2 :: r =>
        (0xA0 ≤ c1 && c1 ≤ 0xBF) && (isUtf8Cont c2 && isValidUtf8 r)
      | _ => false
    else if (0xE1 ≤ b ∧ b ≤ 0xEC) ∨ b = 0xEE ∨ b = 0xEF then
      match rest with
      | c1 :: c2 :: r => isUtf8Cont c1 && (isUtf8Cont c2 && isValidUtf8 r)
      | _ => false
    else if b = 0xED then
      match rest with
      | c1 :: c2 :: r =>
        (0x80 ≤ c1 && c1 ≤ 0x9F) && (isUtf8Cont c2 && isValidUtf8 r)
      | _ => false
    else if b = 0xF0 then
      match rest with
      | c1 :: c2 :: c3 :: r =>
        (0x90 ≤ c1 && c1 ≤ 0xBF) &&
          (isUtf8Cont c2 && (isUtf8Cont c3 && isValidUtf8 r))
      | _ => false
    else if 0xF1 ≤ b ∧ b ≤ 0xF3 then
      match rest with
      | c1 :: c2 :: c3 :: r =>
        isUtf8Cont c1 && (isUtf8Cont c2 && (isUtf8Cont c3 && isValidUtf8 r))
      | _ => false
    else if b = 0xF4 then
      match rest with
      | c1 :: c2 :: c3 :: r =>
        (0x80 ≤ c1 && c1 ≤ 0x8F) &&
          (isUtf8Cont c2 && (isUtf8Cont c3 && isValidUtf8 r))
      | _ => false
    else false

/-- The decoder error type (`command::Error`): `Utf8Error` (from a failed
`String::from_utf8`, also covering `parser::Error::Utf8Error`) or
`UnknownCommand` carrying the (UTF-8 valid) tag.  The tag is kept as its
byte list. -/
inductive Command.Error where
  | utf8Error : Command.Error
  | unknownCommand (tag : List Nat) : Command.Error
deriving DecidableEq, Repr

/-- Decidable equality for `Except`, used to evaluate decoder results on
concrete inputs. -/
instance {ε α : Type} [DecidableEq ε] [DecidableEq α] :
    DecidableEq (Except ε α) := fun x y =>
  match x, y with
  | .ok a, .ok b =>
    if h : a = b then isTrue (by rw [h]) else isFalse (by simp [h])
  | .error a, .error b =>
    if h : a = b then isTrue (by rw [h]) else isFalse (by simp [h])
  | .ok _, .error _ => isFalse (by simp)
  | .error _, .ok _ => isFalse (by simp)

/-- `parse_str` from `src/parser.rs`: the bytes before the first NUL,
validated as UTF-8.  `splitn(2, ..).next()` is always `Some`, so the
`Option` inside `Ok` is always `some`. -/
def parse_str (data : List Nat) : Except Command.Error (Option (List Nat)) :=
  let s := data.takeWhile (fun b => b ≠ 0)
  if isValidUtf8 s then .ok (some s) else .error .utf8Error

/-! ## Record body decoders

From `src/systeminfo.rs`, `src/source.rs`, `src/multiview.rs`,
`src/tally.rs`, `src/command.rs` and `src/upstreamkeyer.rs`. -/

/-- `Version` (`src/systeminfo.rs`). -/
structure Version where
  major : Nat
  minor : Nat
deriving DecidableEq, Repr

/-- `Version::parse`. -/
def Version.parse (data : List Nat) : Option (Version × List Nat) :=
  match getU16 data with
  | none => none
  | some (major, d1) =>
  match getU16 d1 with
  | none => none
  | some (minor, d2) => some (⟨major, minor⟩, d2)

/-- `Topology` (`src/systeminfo.rs`). -/
structure Topology where
  me_count : Nat
  source_count : Nat
  dsk_count : Nat
  aux_count : Nat
  mixminus_output_count : Nat
  mediaplayer_count : Nat
  multiviewer_count : Nat
  rs485_count : Nat
  hyperdeck_count : Nat
  stinger_count : Nat
  dve_count : Nat
  supersource_count : Nat
  talkback_count : Nat
  sdi_count : Nat
  scalers_available : Nat
deriving DecidableEq, Repr

/-- `Topology::parse`: sixteen `u8` reads, the 13th discarded; note the
source reads `dve_count` before `stinger_count`. -/
def Topology.parse (data : List Nat) : Option (Topology × List Nat) :=
  match getU8 data with
  | none => none
  | some (me_count, d1) =>
  match getU8 d1 with
  | none => none
  | some (source_count, d2) =>
  match getU8 d2 with
  | none => none
  | some (dsk_count, d3) =>
  match getU8 d3 with
  | none => none
  | some (aux_count, d4) =>
  match getU8 d4 with
  | none => none
  | some (mixminus_output_count, d5) =>
  match getU8 d5 with
  | none => none
  | some (mediaplayer_count, d6) =>
  match getU8 d6 with
  | none => none
  | some (multiviewer_count, d7) =>
  match getU8 d7 with
  | none => none
  | some (rs485_count, d8) =>
  match getU8 d8 with
  | none => none
  | some (hyperdeck_count, d9) =>
  match getU8 d9 with
  | none => none
  | some (dve_count, d10) =>
  match getU8 d10 with
  | none => none
  | some (stinger_count, d11) =>
  match getU8 d11 with
  | none => none
  | some (supersource_count, d12) =>
  match getU8 d12 with
  | none => none
  | some (_, d13) =>
  match getU8 d13 with
  | none => none
  | some (talkback_count, d14) =>
  match getU8 d14 with
  | none => none
  | some (sdi_count, d15) =>
  match getU8 d15 with
  | none => none
  | some (scalers_available, d16) =>
    some (⟨me_count, source_count, dsk_count, aux_count,
      mixminus_output_count, mediaplayer_count, multiviewer_count,
      rs485_count, hyperdeck_count, stinger_count, dve_count,
      supersource_count, talkback_count, sdi_count, scalers_available⟩, d16)

/-- `PowerState` (`src/systeminfo.rs`). -/
structure PowerState where
  primary : Bool
  secondary : Bool
deriving DecidableEq, Repr

/-- `PowerState::parse`. -/
def PowerState.parse (data : List Nat) : Option (PowerState × List Nat) :=
  match getU8 data with
  | none => none
  | some (states, d1) =>
    some (⟨decide (states &&& 0x01 > 0), decide (states &&& 0x02 > 0)⟩, d1)

/-- `TimeCodeType` (`src/systeminfo.rs`). -/
inductive TimeCodeType where
  | freeRunning
  | timeOfDay
  | unknown (u : Nat)
deriving DecidableEq, Repr

/-- `From<u8> for TimeCodeType`. -/
def TimeCodeType.from_u8 (value : Nat) : TimeCodeType :=
  if value = 0 then .freeRunning
  else if value = 1 then .timeOfDay
  else .unknown value

/-- `TimeCodeState` (`src/systeminfo.rs`). -/
structure TimeCodeState where
  timecode_type : TimeCodeType
deriving DecidableEq, Repr

/-- `TimeCodeState::parse`. -/
def TimeCodeState.parse (data : List Nat) : Option (TimeCodeState × List Nat) :=
  match getU8 data with
  | none => none
  | some (t, d1) => some (⟨TimeCodeType.from_u8 t⟩, d1)

/-- `VideoMode` (`src/systeminfo.rs`). -/
inductive VideoMode where
  | ntsc | pal | ntscWidescreen | palWidescreen
  | res720p50 | res720p59_94 | res1080i50 | res1080i59_94
  | res1080p23_98 | res1080p24 | res1080p25 | res1080p29_97
  | res1080p50 | res1080p59_94
  | res4K23_98 | res4K24 | res4K25 | res4K29_97 | res4K50 | res4K59_94
  | res8K23_98 | res8K24 | res8K25 | res8K29_97 | res8K50 | res8K59_94
  | res1080p30 | res1080p60 | res720p60 | res1080i60
  | unknown (u : Nat)
deriving DecidableEq, Repr

/-- `From<u8> for VideoMode`. -/
def VideoMode.from_u8 (value : Nat) : VideoMode :=
  if value = 0 then .ntsc
  else if value = 1 then .pal
  else if value = 2 then .ntscWidescreen
  else if value = 3 then .palWidescreen
  else if value = 4 then .res720p50
  else if value = 5 then .res720p59_94
  else if value = 6 then .res1080i50
  else if value = 7 then .res1080i59_94
  else if value = 8 then .res1080p23_98
  else if value = 9 then .res1080p24
  else if value = 10 then .res1080p25
  else if value = 11 then .res1080p29_97
  else if value = 12 then .res1080p50
  else if value = 13 then .res1080p59_94
  else if value = 14 then .res4K23_98
  else if value = 15 then .res4K24
  else if value = 16 then .res4K25
  else if value = 17 then .res4K29_97
  else if value = 18 then .res4K50
  else if value = 19 then .res4K59_94
  else if value = 20 then .res8K23_98
  else if value = 21 then .res8K24
  else if value = 22 then .res8K25
  else if value = 23 then .res8K29_97
  else if value = 24 then .res8K50
  else if value = 25 then .res8K59_94
  else if value = 26 then .res1080p30
  else if value = 27 then .res1080p60
  else if value = 28 then .res720p60
  else if value = 29 then .res1080i60
  else .unknown value

/-- `VideoMode::parse`. -/
def VideoMode.parse (data : List Nat) : Option (VideoMode × List Nat) :=
  match getU8 data with
  | none => none
  | some (v, d1) => some (VideoMode.from_u8 v, d1)

/-- Modelled from the spec: `MeConfig` is imported by `src/command.rs`
from the crate's `systeminfo` module but its definition is not among the
source files; spec §4.5.1 describes it as an opaque capability bitset
"carrying the raw bytes to the consumer". -/
structure MeConfig where
  raw : List Nat
deriving DecidableEq, Repr

/-- Modelled from the spec: `MeConfig::parse` carries the raw body. -/
def MeConfig.parse (data : List Nat) : Option (MeConfig × List Nat) :=
  some (⟨data⟩, [])

/-- Modelled from the spec: `MediaPlayerConfig`, an opaque capability
record whose definition is not among the source files (spec §4.5.1). -/
structure MediaPlayerConfig where
  raw : List Nat
deriving DecidableEq, Repr

/-- Modelled from the spec: `MediaPlayerConfig::parse` carries the raw
body. -/
def MediaPlayerConfig.parse (data : List Nat) :
    Option (MediaPlayerConfig × List Nat) :=
  some (⟨data⟩, [])

/-- Modelled from the spec: `VideoModeConfig`, an opaque capability
bitset whose definition is not among the source files (spec §4.5.1). -/
structure VideoModeConfig where
  raw : List Nat
deriving DecidableEq, Repr

/-- Modelled from the spec: `VideoModeConfig::parse` carries the raw
body. -/
def VideoModeConfig.parse (data : List Nat) :
    Option (VideoModeConfig × List Nat) :=
  some (⟨data⟩, [])

/-! ## The `InPr` source record (`src/source.rs`) -/

/-- `Input` (`src/source.rs`): the active physical input kind. -/
inductive Input where
  | sdi | hdmi | composite | component | svideo
deriving DecidableEq, Repr

/-- `Input::from_u16`: `None` for values outside `1..=5`. -/
def Input.from_u16 (value : Nat) : Option Input :=
  if value = 1 then some .sdi
  else if value = 2 then some .hdmi
  else if value = 3 then some .composite
  else if value = 4 then some .component
  else if value = 5 then some .svideo
  else none

/-- `SourceType` (`src/source.rs`). -/
inductive SourceType where
  | external | black | colorBars | colorGenerator
  | mediaPlayerFill | mediaPlayerKey | superSource | meOutput
  | auxiliary | mask | status | direct
  | unknown (val : Nat)
deriving DecidableEq, Repr

/-- `From<u8> for SourceType`. -/
def SourceType.from_u8 (value : Nat) : SourceType :=
  if value = 0 then .external
  else if value = 1 then .black
  else if value = 2 then .colorBars
  else if value = 3 then .colorGenerator
  else if value = 4 then .mediaPlayerFill
  else if value = 5 then .mediaPlayerKey
  else if value = 6 then .superSource
  else if value = 7 then .direct
  else if value = 128 then .meOutput
  else if value = 129 then .auxiliary
  else if value = 130 then .mask
  else if value = 131 then .status
  else .unknown value

namespace InputFlags

/-- The union of the `InputFlags` bits declared in `src/source.rs`
(`SDI=0x0001, HDMI=0x0002, COMPOSITE=0x0004, COMPONENT=0x0008,
SVIDEO=0x0010, INTERNAL=0x0100`). -/
def KNOWN : Nat := 0x011f

/-- `bitflags`-generated `InputFlags::from_bits`. -/
def from_bits (b : Nat) : Option Nat :=
  if b &&& KNOWN = b then some b else none

end InputFlags

namespace FunctionFlags

/-- The union of the `FunctionFlags` bits declared in `src/source.rs`
(`AUXILIARY=0x01, MULTIVIEWER=0x02, SUPERSOURCE_ART=0x04,
SUPERSOURCE_BOX=0x08, KEY_SOURCES=0x10`). -/
def KNOWN : Nat := 0x1f

/-- `bitflags`-generated `FunctionFlags::from_bits`. -/
def from_bits (b : Nat) : Option Nat :=
  if b &&& KNOWN = b then some b else none

end FunctionFlags

namespace MixEffectFlags

/-- The union of the `MixEffectFlags` bits declared in `src/source.rs`
(`ME1=0x01` through `ME8=0x80`: every bit of a `u8`). -/
def KNOWN : Nat := 0xff

/-- `bitflags`-generated `MixEffectFlags::from_bits`. -/
def from_bits (b : Nat) : Option Nat :=
  if b &&& KNOWN = b then some b else none

end MixEffectFlags

/-- `Source` (`src/source.rs`): the decoded `InPr` record.  The bitset
fields hold the raw bit patterns of the corresponding `bitflags` types. -/
structure Source where
  id : Nat
  name : Option (List Nat)
  short_name : Option (List Nat)
  available_inputs : Nat
  active_input : Option Input
  source_type : SourceType
  available_functions : Nat
  available_on_me : Nat
deriving DecidableEq, Repr

/-- `Source::parse`.  The `InputFlags::from_bits(..).unwrap()` and
`FunctionFlags::from_bits(..).unwrap()` calls of the source panic
(`none`) when a bit outside the declared set is present;
`MixEffectFlags::from_bits(..).unwrap()` cannot fail because the declared
bits cover the whole byte.  `parse_str` UTF-8 failures are the
recoverable `Err` (`Except.error`). -/
def Source.parse (data : List Nat) : Option (Except Command.Error Source) :=
  match getU16 data with
  | none => none
  | some (id, d1) =>
  match splitTo 20 d1 with
  | none => none
  | some (name_field, d2) =>
  match parse_str name_field with
  | .error e => some (.error e)
  | .ok name =>
  match splitTo 4 d2 with
  | none => none
  | some (short_field, d3) =>
  match parse_str short_field with
  | .error e => some (.error e)
  | .ok short_name =>
  match getU16 d3 with
  | none => none
  | some (_, d4) =>
  match getU16 d4 with
  | none => none
  | some (inputs_raw, d5) =>
  match InputFlags.from_bits inputs_raw with
  | none => none
  | some available_inputs =>
  match getU16 d5 with
  | none => none
  | some (active_raw, d6) =>
  match getU8 d6 with
  | none => none
  | some (st, d7) =>
  match getU8 d7 with
  | none => none
  | some (_, d8) =>
  match getU8 d8 with
  | none => none
  | some (fn_raw, d9) =>
  match FunctionFlags.from_bits fn_raw with
  | none => none
  | some available_functions =>
  match getU8 d9 with
  | none => none
  | some (me_raw, _) =>
  match MixEffectFlags.from_bits me_raw with
  | none => none
  | some available_on_me =>
    some (.ok ⟨id, name, short_name, available_inputs,
      Input.from_u16 active_raw, SourceType.from_u8 st,
      available_functions, available_on_me⟩)

/-! ## Multiview records (`src/multiview.rs`) -/

/-- `MultiViewInput`. -/
structure MultiViewInput where
  multiview : Nat
  window : Nat
  source : Nat
deriving DecidableEq, Repr

/-- `MultiViewInput::parse`. -/
def MultiViewInput.parse (data : List Nat) :
    Option (MultiViewInput × List Nat) :=
  match getU8 data with
  | none => none
  | some (multiview, d1) =>
  match getU8 d1 with
  | none => none
  | some (window, d2) =>
  match getU16 d2 with
  | none => none
  | some (source, d3) => some (⟨multiview, window, source⟩, d3)

/-- `MultiViewVU`. -/
structure MultiViewVU where
  multiview : Nat
  window : Nat
  enabled : Bool
deriving DecidableEq, Repr

/-- `MultiViewVU::parse`. -/
def MultiViewVU.parse (data : List Nat) : Option (MultiViewVU × List Nat) :=
  match getU8 data with
  | none => none
  | some (multiview, d1) =>
  match getU8 d1 with
  | none => none
  | some (window, d2) =>
  match getU8 d2 with
  | none => none
  | some (e, d3) => some (⟨multiview, window, e == 1⟩, d3)

/-- `MultiViewSafeArea`. -/
structure MultiViewSafeArea where
  multiview : Nat
  window : Nat
  enabled : Bool
deriving DecidableEq, Repr

/-- `MultiViewSafeArea::parse`. -/
def MultiViewSafeArea.parse (data : List Nat) :
    Option (MultiViewSafeArea × List Nat) :=
  match getU8 data with
  | none => none
  | some (multiview, d1) =>
  match getU8 d1 with
  | none => none
  | some (window, d2) =>
  match getU8 d2 with
  | none => none
  | some (e, d3) => some (⟨multiview, window, e == 1⟩, d3)

/-- `MultiViewLayout`. -/
structure MultiViewLayout where
  multiview : Nat
  layout : Nat
  flip_program : Bool
deriving DecidableEq, Repr

/-- `MultiViewLayout::parse`. -/
def MultiViewLayout.parse (data : List Nat) :
    Option (MultiViewLayout × List Nat) :=
  match getU8 data with
  | none => none
  | some (multiview, d1) =>
  match getU8 d1 with
  | none => none
  | some (layout, d2) =>
  match getU8 d2 with
  | none => none
  | some (f, d3) => some (⟨multiview, layout, f == 1⟩, d3)

/-! ## Tally records (`src/tally.rs`) -/

/-- `TallyState`. -/
structure TallyState where
  program : Bool
  preview : Bool
deriving DecidableEq, Repr

/-- `TallyState::new`. -/
def TallyState.new (program preview : Bool) : TallyState := ⟨program, preview⟩

/-- `TallyInputs`. -/
structure TallyInputs where
  tally_states : List TallyState
deriving DecidableEq, Repr

/-- The `for _ in 0..count` loop body of `TallyInputs::parse`: one `u8`
per input, bit 0 = program, bit 1 = preview. -/
def readTallyStates : Nat → List Nat → Option (List TallyState × List Nat)
  | 0, d => some ([], d)
  | n + 1, d =>
    match getU8 d with
    | none => none
    | some (byte, d1) =>
    match readTallyStates n d1 with
    | none => none
    | some (states, d2) =>
      some (TallyState.new (decide (byte &&& 0x01 > 0))
        (decide (byte &&& 0x02 > 0)) :: states, d2)

/-- `TallyInputs::parse`. -/
def TallyInputs.parse (data : List Nat) : Option (TallyInputs × List Nat) :=
  match getU16 data with
  | none => none
  | some (count, d1) =>
  match readTallyStates count d1 with
  | none => none
  | some (tally_states, d2) => some (⟨tally_states⟩, d2)

/-- `SourceTally`. -/
structure SourceTally where
  source_id : Nat
  state : TallyState
deriving DecidableEq, Repr

/-- `SourceTally::new`. -/
def SourceTally.new (source_id : Nat) (state : TallyState) : SourceTally :=
  ⟨source_id, state⟩

/-- `TallySources`. -/
structure TallySources where
  tally_states : List SourceTally
deriving DecidableEq, Repr

/-- The `for _ in 0..count` loop body of `TallySources::parse`: a `u16`
source id and a `u8` of tally bits per entry. -/
def readSourceTallies : Nat → List Nat → Option (List SourceTally × List Nat)
  | 0, d => some ([], d)
  | n + 1, d =>
    match getU16 d with
    | none => none
    | some (source_id, d1) =>
    match getU8 d1 with
    | none => none
    | some (byte, d2) =>
    match readSourceTallies n d2 with
    | none => none
    | some (states, d3) =>
      some (SourceTally.new source_id
        (TallyState.new (decide (byte &&& 0x01 > 0))
          (decide (byte &&& 0x02 > 0))) :: states, d3)

/-- `TallySources::parse`. -/
def TallySources.parse (data : List Nat) : Option (TallySources × List Nat) :=
  match getU16 data with
  | none => none
  | some (count, d1) =>
  match readSourceTallies count d1 with
  | none => none
  | some (tally_states, d2) => some (⟨tally_states⟩, d2)

/-! ## Record bodies defined inside `src/command.rs` -/

/-- `SourceSelection` (used by `PrgI`, `PrvI` and `AuxS`). -/
structure SourceSelection where
  destination : Nat
  source_id : Nat
deriving DecidableEq, Repr

/-- `SourceSelection::parse`. -/
def SourceSelection.parse (data : List Nat) :
    Option (SourceSelection × List Nat) :=
  match getU8 data with
  | none => none
  | some (destination, d1) =>
  match getU8 d1 with
  | none => none
  | some (_, d2) =>
  match getU16 d2 with
  | none => none
  | some (source_id, d3) => some (⟨destination, source_id⟩, d3)

/-- `TransitionPosition`. -/
structure TransitionPosition where
  me : Nat
  frame_count : Nat
  position : Nat
deriving DecidableEq, Repr

/-- `TransitionPosition::parse`. -/
def TransitionPosition.parse (data : List Nat) :
    Option (TransitionPosition × List Nat) :=
  match getU8 data with
  | none => none
  | some (me, d1) =>
  match getU8 d1 with
  | none => none
  | some (_, d2) =>
  match getU8 d2 with
  | none => none
  | some (frame_count, d3) =>
  match getU8 d3 with
  | none => none
  | some (_, d4) =>
  match getU16 d4 with
  | none => none
  | some (position, d5) => some (⟨me, frame_count, position⟩, d5)

/-- `Time` (`src/command.rs`). -/
structure Time where
  hour : Nat
  minute : Nat
  second : Nat
  frame : Nat
deriving DecidableEq, Repr

/-- `Time::parse`. -/
def Time.parse (data : List Nat) : Option (Time × List Nat) :=
  match getU8 data with
  | none => none
  | some (hour, d1) =>
  match getU8 d1 with
  | none => none
  | some (minute, d2) =>
  match getU8 d2 with
  | none => none
  | some (second, d3) =>
  match getU8 d3 with
  | none => none
  | some (frame, d4) => some (⟨hour, minute, second, frame⟩, d4)

/-- `TransitionStyle` (`src/command.rs`). -/
inductive TransitionStyle where
  | mix | dip | wipe | dve | stinger
  | unknown (u : Nat)
deriving DecidableEq, Repr

/-- `From<u8> for TransitionStyle`. -/
def TransitionStyle.from_u8 (value : Nat) : TransitionStyle :=
  if value = 0 then .mix
  else if value = 1 then .dip
  else if value = 2 then .wipe
  else if value = 3 then .dve
  else if value = 4 then .stinger
  else .unknown value

/-- `TransitionStyleSelection`. -/
structure TransitionStyleSelection where
  me : Nat
  current_style : TransitionStyle
  current_selection : Nat
  next_style : TransitionStyle
  next_selection : Nat
deriving DecidableEq, Repr

/-- `TransitionStyleSelection::parse`. -/
def TransitionStyleSelection.parse (data : List Nat) :
    Option (TransitionStyleSelection × List Nat) :=
  match getU8 data with
  | none => none
  | some (me, d1) =>
  match getU8 d1 with
  | none => none
  | some (current_style, d2) =>
  match getU8 d2 with
  | none => none
  | some (current_selection, d3) =>
  match getU8 d3 with
  | none => none
  | some (next_style, d4) =>
  match getU8 d4 with
  | none => none
  | some (next_selection, d5) =>
    some (⟨me, TransitionStyle.from_u8 current_style, current_selection,
      TransitionStyle.from_u8 next_style, next_selection⟩, d5)

/-- `TransitionPreview`. -/
structure TransitionPreview where
  me : Nat
  enabled : Bool
deriving DecidableEq, Repr

/-- `TransitionPreview::parse`. -/
def TransitionPreview.parse (data : List Nat) :
    Option (TransitionPreview × List Nat) :=
  match getU8 data with
  | none => none
  | some (me, d1) =>
  match getU8 d1 with
  | none => none
  | some (e, d2) => some (⟨me, e == 1⟩, d2)

/-- `TransitionMix`. -/
structure TransitionMix where
  me : Nat
  rate : Nat
deriving DecidableEq, Repr

/-- `TransitionMix::parse`. -/
def TransitionMix.parse (data : List Nat) :
    Option (TransitionMix × List Nat) :=
  match getU8 data with
  | none => none
  | some (me, d1) =>
  match getU8 d1 with
  | none => none
  | some (rate, d2) => some (⟨me, rate⟩, d2)

/-- `TransitionDip`. -/
structure TransitionDip where
  me : Nat
  rate : Nat
  source : Nat
deriving DecidableEq, Repr

/-- `TransitionDip::parse`. -/
def TransitionDip.parse (data : List Nat) :
    Option (TransitionDip × List Nat) :=
  match getU8 data with
  | none => none
  | some (me, d1) =>
  match getU8 d1 with
  | none => none
  | some (rate, d2) =>
  match getU16 d2 with
  | none => none
  | some (source, d3) => some (⟨me, rate, source⟩, d3)

/-- `TransitionWipe`. -/
structure TransitionWipe where
  me : Nat
  rate : Nat
  pattern : Nat
  border_width : Nat
  border_fill_source : Nat
  symmetry : Nat
  softness : Nat
  origin_x : Nat
  origin_y : Nat
  reverse : Bool
  flip : Bool
deriving DecidableEq, Repr

/-- `TransitionWipe::parse`. -/
def TransitionWipe.parse (data : List Nat) :
    Option (TransitionWipe × List Nat) :=
  match getU8 data with
  | none => none
  | some (me, d1) =>
  match getU8 d1 with
  | none => none
  | some (rate, d2) =>
  match getU8 d2 with
  | none => none
  | some (pattern, d3) =>
  match getU8 d3 with
  | none => none
  | some (_, d4) =>
  match getU16 d4 with
  | none => none
  | some (border_width, d5) =>
  match getU16 d5 with
  | none => none
  | some (border_fill_source, d6) =>
  match getU16 d6 with
  | none => none
  | some (symmetry, d7) =>
  match getU16 d7 with
  | none => none
  | some (softness, d8) =>
  match getU16 d8 with
  | none => none
  | some (origin_x, d9) =>
  match getU16 d9 with
  | none => none
  | some (origin_y, d10) =>
  match getU8 d10 with
  | none => none
  | some (rv, d11) =>
  match getU8 d11 with
  | none => none
  | some (fl, d12) =>
    some (⟨me, rate, pattern, border_width, border_fill_source, symmetry,
      softness, origin_x, origin_y, rv == 1, fl == 1⟩, d12)

/-- `TransitionDVE`. -/
structure TransitionDVE where
  me : Nat
  rate : Nat
  style : Nat
  fill_source : Nat
  key_source : Nat
  key_enabled : Bool
  key_premultiplied : Bool
  key_clip : Nat
  key_gain : Nat
  key_invert : Bool
  reverse : Bool
  flip : Bool
deriving DecidableEq, Repr

/-- `TransitionDVE::parse`. -/
def TransitionDVE.parse (data : List Nat) :
    Option (TransitionDVE × List Nat) :=
  match getU8 data with
  | none => none
  | some (me, d1) =>
  match getU8 d1 with
  | none => none
  | some (rate, d2) =>
  match getU8 d2 with
  | none => none
  | some (_, d3) =>
  match getU8 d3 with
  | none => none
  | some (style, d4) =>
  match getU16 d4 with
  | none => none
  | some (fill_source, d5) =>
  match getU16 d5 with
  | none => none
  | some (key_source, d6) =>
  match getU8 d6 with
  | none => none
  | some (ke, d7) =>
  match getU8 d7 with
  | none => none
  | some (kp, d8) =>
  match getU16 d8 with
  | none => none
  | some (key_clip, d9) =>
  match getU16 d9 with
  | none => none
  | some (key_gain, d10) =>
  match getU8 d10 with
  | none => none
  | some (ki, d11) =>
  match getU8 d11 with
  | none => none
  | some (rv, d12) =>
  match getU8 d12 with
  | none => none
  | some (fl, d13) =>
    some (⟨me, rate, style, fill_source, key_source, ke == 1, kp == 1,
      key_clip, key_gain, ki == 1, rv == 1, fl == 1⟩, d13)

/-- `TransitionStinger`. -/
structure TransitionStinger where
  me : Nat
  source : Nat
  key_premultiplied : Bool
  key_clip : Nat
  key_gain : Nat
  key_invert : Bool
  pre_roll : Nat
  clip_duration : Nat
  rate : Nat
deriving DecidableEq, Repr

/-- `TransitionStinger::parse`. -/
def TransitionStinger.parse (data : List Nat) :
    Option (TransitionStinger × List Nat) :=
  match getU8 data with
  | none => none
  | some (me, d1) =>
  match getU16 d1 with
  | none => none
  | some (source, d2) =>
  match getU8 d2 with
  | none => none
  | some (kp, d3) =>
  match getU16 d3 with
  | none => none
  | some (key_clip, d4) =>
  match getU16 d4 with
  | none => none
  | some (key_gain, d5) =>
  match getU8 d5 with
  | none => none
  | some (ki, d6) =>
  match getU16 d6 with
  | none => none
  | some (pre_roll, d7) =>
  match getU16 d7 with
  | none => none
  | some (clip_duration, d8) =>
  match getU16 d8 with
  | none => none
  | some (rate, d9) =>
    some (⟨me, source, kp == 1, key_clip, key_gain, ki == 1, pre_roll,
      clip_duration, rate⟩, d9)

/-! ## Upstream keyer records (`src/upstreamkeyer.rs`)

These decoders exist in the crate but are not referenced by
`Command::parse`. -/

/-- `KeyerOnAir`. -/
structure KeyerOnAir where
  me : Nat
  keyer : Nat
  on_air : Bool
deriving DecidableEq, Repr

/-- `KeyerOnAir::parse`. -/
def KeyerOnAir.parse (data : List Nat) : Option (KeyerOnAir × List Nat) :=
  match getU8 data with
  | none => none
  | some (me, d1) =>
  match getU8 d1 with
  | none => none
  | some (keyer, d2) =>
  match getU8 d2 with
  | none => none
  | some (oa, d3) => some (⟨me, keyer, oa == 1⟩, d3)

/-- `KeyerBaseProperties`.  The Rust `f32` mask fields (`i16` divided by
`1000.0`) are modelled as exact rationals. -/
structure KeyerBaseProperties where
  me : Nat
  keyer : Nat
  keyer_type : Nat
  flying : Bool
  fill : Nat
  key : Nat
  mask : Bool
  mask_top : Rat
  mask_bottom : Rat
  mask_left : Rat
  mask_right : Rat
deriving DecidableEq, Repr

/-- `KeyerBaseProperties::parse`. -/
def KeyerBaseProperties.parse (data : List Nat) :
    Option (KeyerBaseProperties × List Nat) :=
  match getU8 data with
  | none => none
  | some (me, d1) =>
  match getU8 d1 with
  | none => none
  | some (keyer, d2) =>
  match getU8 d2 with
  | none => none
  | some (keyer_type, d3) =>
  match getU16 d3 with
  | none => none
  | some (_, d4) =>
  match getU8 d4 with
  | none => none
  | some (fy, d5) =>
  match getU16 d5 with
  | none => none
  | some (fill, d6) =>
  match getU16 d6 with
  | none => none
  | some (key, d7) =>
  match getU8 d7 with
  | none => none
  | some (ms, d8) =>
  match getU8 d8 with
  | none => none
  | some (_, d9) =>
  match getI16 d9 with
  | none => none
  | some (mt, d10) =>
  match getI16 d10 with
  | none => none
  | some (mb, d11) =>
  match getI16 d11 with
  | none => none
  | some (ml, d12) =>
  match getI16 d12 with
  | none => none
  | some (mr, d13) =>
    some (⟨me, keyer, keyer_type, decide (fy > 0), fill, key,
      decide (ms > 0), (mt : Rat) / 1000, (mb : Rat) / 1000,
      (ml : Rat) / 1000, (mr : Rat) / 1000⟩, d13)

/-! ## The command decoder (`src/command.rs`) -/

/-- `Command`: the tagged union of decoded records. -/
inductive Command where
  | Version (v : Atem.Version)
  | Product (p : List Nat)
  | Topology (t : Atem.Topology)
  | Source (s : Atem.Source)
  | ProgramInput (s : SourceSelection)
  | PreviewInput (s : SourceSelection)
  | TransitionPosition (t : Atem.TransitionPosition)
  | Time (t : Atem.Time)
  | TallyInputs (t : Atem.TallyInputs)
  | TallySources (t : Atem.TallySources)
  | PowerState (p : Atem.PowerState)
  | TransitionStyleSelection (t : Atem.TransitionStyleSelection)
  | AuxSource (s : SourceSelection)
  | MultiViewInput (m : Atem.MultiViewInput)
  | TimeCodeState (t : Atem.TimeCodeState)
  | VideoMode (v : Atem.VideoMode)
  | MeConfig (m : Atem.MeConfig)
  | MediaPlayerConfig (m : Atem.MediaPlayerConfig)
  | VideoModeConfig (v : Atem.VideoModeConfig)
  | MultiViewVU (m : Atem.MultiViewVU)
  | MultiViewSafeArea (m : Atem.MultiViewSafeArea)
  | MultiViewLayout (m : Atem.MultiViewLayout)
  | TransitionPreview (t : Atem.TransitionPreview)
  | TransitionMix (t : Atem.TransitionMix)
  | TransitionDip (t : Atem.TransitionDip)
  | TransitionWipe (t : Atem.TransitionWipe)
  | TransitionDVE (t : Atem.TransitionDVE)
  | TransitionStinger (t : Atem.TransitionStinger)
deriving DecidableEq, Repr

/-- The 4-byte tags dispatched by the `match &cmd[..]` of
`Command::parse`, as ASCII byte lists, in source order:
`_ver`, `_pin`, `_top`, `InPr`, `PrgI`, `PrvI`, `TrPs`, `Time`, `TlIn`,
`TlSr`, `Powr`, `TrSS`, `AuxS`, `MvIn`, `TCCc`, `VidM`, `_MeC`, `_mpl`,
`_VMC`, `VuMC`, `SaMw`, `MvPr`, `TrPr`, `TMxP`, `TDpP`, `TWpP`, `TDvP`,
`TStP`. -/
def knownTags : List (List Nat) :=
  [[95, 118, 101, 114], [95, 112, 105, 110], [95, 116, 111, 112],
   [73, 110, 80, 114], [80, 114, 103, 73], [80, 114, 118, 73],
   [84, 114, 80, 115], [84, 105, 109, 101], [84, 108, 73, 110],
   [84, 108, 83, 114], [80, 111, 119, 114], [84, 114, 83, 83],
   [65, 117, 120, 83], [77, 118, 73, 110], [84, 67, 67, 99],
   [86, 105, 100, 77], [95, 77, 101, 67], [95, 109, 112, 108],
   [95, 86, 77, 67], [86, 117, 77, 67], [83, 97, 77, 119],
   [77, 118, 80, 114], [84, 114, 80, 114], [84, 77, 120, 80],
   [84, 68, 112, 80], [84, 87, 112, 80], [84, 68, 118, 80],
   [84, 83, 116, 80]]

/-- The `match &cmd[..]` dispatch of `Command::parse` applied to the
already-split record body.  Recoverable errors (`Err`) are
`Except.error`; a panic inside a body decoder (reading past the end of
the body) is `none`.  The catch-all arm builds `UnknownCommand` from the
tag when it is valid UTF-8 and otherwise propagates the `FromUtf8Error`
(both `String::from_utf8(cmd.to_vec())?` calls behave identically). -/
def Command.parseBody (cmd data : List Nat) :
    Option (Except Command.Error Command) :=
  if cmd = [95, 118, 101, 114] then
    match Version.parse data with
    | none => none
    | some (version, _) => some (.ok (.Version version))
  else if cmd = [95, 112, 105, 110] then
    match parse_str data with
    | .error e => some (.error e)
    | .ok none => none
    | .ok (some product) => some (.ok (.Product product))
  else if cmd = [95, 116, 111, 112] then
    match Topology.parse data with
    | none => none
    | some (topology, _) => some (.ok (.Topology topology))
  else if cmd = [73, 110, 80, 114] then
    match Source.parse data with
    | none => none
    | some (.error e) => some (.error e)
    | some (.ok source) => some (.ok (.Source source))
  else if cmd = [80, 114, 103, 73] then
    match SourceSelection.parse data with
    | none => none
    | some (s, _) => some (.ok (.ProgramInput s))
  else if cmd = [80, 114, 118, 73] then
    match SourceSelection.parse data with
    | none => none
    | some (s, _) => some (.ok (.PreviewInput s))
  else if cmd = [84, 114, 80, 115] then
    match TransitionPosition.parse data with
    | none => none
    | some (t, _) => some (.ok (.TransitionPosition t))
  else if cmd = [84, 105, 109, 101] then
    match Time.parse data with
    | none => none
    | some (t, _) => some (.ok (.Time t))
  else if cmd = [84, 108, 73, 110] then
    match TallyInputs.parse data with
    | none => none
    | some (t, _) => some (.ok (.TallyInputs t))
  else if cmd = [84, 108, 83, 114] then
    match TallySources.parse data with
    | none => none
    | some (t, _) => some (.ok (.TallySources t))
  else if cmd = [80, 111, 119, 114] then
    match PowerState.parse data with
    | none => none
    | some (p, _) => some (.ok (.PowerState p))
  else if cmd = [84, 114, 83, 83] then
    match TransitionStyleSelection.parse data with
    | none => none
    | some (t, _) => some (.ok (.TransitionStyleSelection t))
  else if cmd = [65, 117, 120, 83] then
    match SourceSelection.parse data with
    | none => none
    | some (s, _) => some (.ok (.AuxSource s))
  else if cmd = [77, 118, 73, 110] then
    match MultiViewInput.parse data with
    | none => none
    | some (m, _) => some (.ok (.MultiViewInput m))
  else if cmd = [84, 67, 67, 99] then
    match TimeCodeState.parse data with
    | none => none
    | some (t, _) => some (.ok (.TimeCodeState t))
  else if cmd = [86, 105, 100, 77] then
    match VideoMode.parse data with
    | none => none
    | some (v, _) => some (.ok (.VideoMode v))
  else if cmd = [95, 77, 101, 67] then
    match MeConfig.parse data with
    | none => none
    | some (m, _) => some (.ok (.MeConfig m))
  else if cmd = [95, 109, 112, 108] then
    match MediaPlayerConfig.parse data with
    | none => none
    | some (m, _) => some (.ok (.MediaPlayerConfig m))
  else if cmd = [95, 86, 77, 67] then
    match VideoModeConfig.parse data with
    | none => none
    | some (v, _) => some (.ok (.VideoModeConfig v))
  else if cmd = [86, 117, 77, 67] then
    match MultiViewVU.parse data with
    | none => none
    | some (m, _) => some (.ok (.MultiViewVU m))
  else if cmd = [83, 97, 77, 119] then
    match MultiViewSafeArea.parse data with
    | none => none
    | some (m, _) => some (.ok (.MultiViewSafeArea m))
  else if cmd = [77, 118, 80, 114] then
    match MultiViewLayout.parse data with
    | none => none
    | some (m, _) => some (.ok (.MultiViewLayout m))
  else if cmd = [84, 114, 80, 114] then
    match TransitionPreview.parse data with
    | none => none
    | some (t, _) => some (.ok (.TransitionPreview t))
  else if cmd = [84, 77, 120, 80] then
    match TransitionMix.parse data with
    | none => none
    | some (t, _) => some (.ok (.TransitionMix t))
  else if cmd = [84, 68, 112, 80] then
    match TransitionDip.parse data with
    | none => none
    | some (t, _) => some (.ok (.TransitionDip t))
  else if cmd = [84, 87, 112, 80] then
    match TransitionWipe.parse data with
    | none => none
    | some (t, _) => some (.ok (.TransitionWipe t))
  else if cmd = [84, 68, 118, 80] then
    match TransitionDVE.parse data with
    | none => none
    | some (t, _) => some (.ok (.TransitionDVE t))
  else if cmd = [84, 83, 116, 80] then
    match TransitionStinger.parse data with
    | none => none
    | some (t, _) => some (.ok (.TransitionStinger t))
  else if isValidUtf8 cmd then some (.error (.unknownCommand cmd))
  else some (.error .utf8Error)

/-- `Command::parse`: read the record header (`size`:u16, two skipped
bytes, 4-byte tag), split off `size - 8` bytes of body, and dispatch.
`none` is a panic: a read past the end of the payload, the `usize`
underflow of `size as usize - 8` when `size < 8`, or a panic inside a
body decoder.  On success or recoverable error the unconsumed suffix of
the payload is returned: the stream position advances by exactly `size`
bytes whether or not the body decoded. -/
def Command.parse (payload : List Nat) :
    Option (Except Command.Error Command × List Nat) :=
  match getU16 payload with
  | none => none
  | some (size, p1) =>
  match getU16 p1 with
  | none => none
  | some (_, p2) =>
  match splitTo 4 p2 with
  | none => none
  | some (cmd, p3) =>
  if size < 8 then none
  else
  match splitTo (size - 8) p3 with
  | none => none
  | some (data, rest) =>
  match Command.parseBody cmd data with
  | none => none
  | some r => some (r, rest)

/-! ## The session engine (`src/lib.rs`) -/

/-- `Message` from `src/lib.rs`.  Error payloads are the decoder errors;
`Disconnected` (socket failure) carries no data in the model because
socket I/O is outside it. -/
inductive Message where
  | connected
  | disconnected
  | parsingFailed (e : Command.Error)
  | command (c : Command)
deriving DecidableEq, Repr

/-- The `while !payload.is_empty()` decode loop of `run`
(`src/lib.rs`): each record yields `Command` or `ParsingFailed`; a panic
inside `Command::parse` (modelled `none`) kills the task, so the loop
output is the messages sent so far plus an aborted flag. -/
def processPayload (payload : List Nat) : List Message × Bool :=
  if payload.isEmpty then ([], false)
  else
    match h : Command.parse payload with
    | none => ([], true)
    | some (.ok c, rest) =>
      let r := processPayload rest
      (.command c :: r.1, r.2)
    | some (.error e, rest) =>
      let r := processPayload rest
      (.parsingFailed e :: r.1, r.2)
termination_by payload.length
decreasing_by
  all_goals {
    simp only [Command.parse] at h
    split at h
    next => exact absurd h (by simp)
    next size p1 hg1 =>
    split at h
    next => exact absurd h (by simp)
    next x p2 hg2 =>
    split at h
    next => exact absurd h (by simp)
    next cmd p3 hg3 =>
    split at h
    next => exact absurd h (by simp)
    next hsz =>
    split at h
    next => exact absurd h (by simp)
    next data rest0 hg4 =>
    split at h
    next => exact absurd h (by simp)
    next r0 hr =>
    injection h with h1
    have hrest : rest = rest0 := (congrArg Prod.snd h1).symm
    subst hrest
    have l1 : p1.length + 2 = payload.length := by
      cases payload with
      | nil => exact absurd hg1 (by simp [getU16])
      | cons a t =>
        cases t with
        | nil => exact absurd hg1 (by simp [getU16])
        | cons b t2 =>
          simp only [getU16] at hg1
          injection hg1 with hg1m
          have hp : p1 = t2 := (congrArg Prod.snd hg1m).symm
          subst hp
          simp
    have l2 : p2.length + 2 = p1.length := by
      cases p1 with
      | nil => exact absurd hg2 (by simp [getU16])
      | cons a t =>
        cases t with
        | nil => exact absurd hg2 (by simp [getU16])
        | cons b t2 =>
          simp only [getU16] at hg2
          injection hg2 with hg2m
          have hp : p2 = t2 := (congrArg Prod.snd hg2m).symm
          subst hp
          simp
    have l3 : p3.length + 4 ≤ p2.length := by
      simp only [splitTo] at hg3
      split at hg3
      next hle =>
        injection hg3 with hg3m
        have hp : p3 = p2.drop 4 := (congrArg Prod.snd hg3m).symm
        subst hp
        simp [List.length_drop]
        omega
      next => exact absurd hg3 (by simp)
    have l4 : rest.length ≤ p3.length := by
      simp only [splitTo] at hg4
      split at hg4
      next hle =>
        injection hg4 with hg4m
        have hp : rest = p3.drop (size - 8) := (congrArg Prod.snd hg4m).symm
        subst hp
        simp [List.length_drop]
      next => exact absurd hg4 (by simp)
    omega
  }

/-- One iteration of the packet loop in `run` (`src/lib.rs`): the body of
`while !packets.is_empty()` for an already-deserialized packet.  Returns
the updated `packet_id` counter, the ack packets written to the socket,
the messages pushed to the channel, and whether the task panicked while
decoding the payload.  A HELLO packet is acked with `id = 0` and
`continue`s, skipping payload decoding; an ACK_REQUEST packet first
increments `packet_id` and acks with the new value; the payload of any
non-HELLO packet is then decoded.  `packet_id` is a `u16` in the source
(its type is forced by `send_ack`'s `packet_id: u16` parameter), so
`packet_id += 1` is the wrapping increment `(packet_id + 1) % 2^16`
(release-profile semantics; the debug profile would abort on the
overflow). -/
def handlePacket (packet_id : Nat) (p : Packet) :
    Nat × List Packet × List Message × Bool :=
  if p.is_hello then
    (packet_id, [Packet.new_ack p.uid p.id 0], [], false)
  else
    let n1 := if p.ack_request then (packet_id + 1) % 65536 else packet_id
    let acks := if p.ack_request then [Packet.new_ack p.uid p.id n1] else []
    match p.payload with
    | none => (n1, acks, [], false)
    | some payload =>
      let r := processPayload payload
      (n1, acks, r.1, r.2)

/-- The packet loop of `run` over a list of received packets (the
concatenation of the packets of the received datagrams, in order):
threads `packet_id` and stops if the task panics. -/
def runPackets : Nat → List Packet → Nat × List Packet × List Message × Bool
  | packet_id, [] => (packet_id, [], [], false)
  | packet_id, p :: ps =>
    match handlePacket packet_id p with
    | (n1, acks1, msgs1, true) => (n1, acks1, msgs1, true)
    | (n1, acks1, msgs1, false) =>
      match runPackets n1 ps with
      | (n2, acks2, msgs2, aborted) =>
        (n2, acks1 ++ acks2, msgs1 ++ msgs2, aborted)

/-- The `run` task of `src/lib.rs` applied to the packets carried by the
received datagrams: `send_hello_packet` first, then the loop with
`packet_id` starting at 0.  Result: the packets written to the socket in
order, and the messages pushed to the consumer channel in order.  (The
socket itself, I/O errors and `Disconnected` emission on them are outside
the model.) -/
def run (ps : List Packet) : List Packet × List Message :=
  let r := runPackets 0 ps
  (Packet.new_hello_packet :: r.2.1, r.2.2.1)

/-! ## Helper lemmas -/

/-- Reading back a big-endian `u16` written by `u16be`. -/
theorem getU16_u16be (x : Nat) (r : List Nat) (h : x < 65536) :
    getU16 (u16be x ++ r) = some (x, r) := by
  simp only [u16be, List.cons_append, List.nil_append, getU16]
  congr 1
  congr 1
  omega

/-- Reading a `u32` of four zero bytes. -/
theorem getU32_zeros (r : List Nat) :
    getU32 ([0, 0, 0, 0] ++ r) = some (0, r) := by
  simp [getU32]

/-- `split_to` at the length of a known prefix. -/
theorem splitTo_append (n : Nat) (a b : List Nat) (h : a.length = n) :
    splitTo n (a ++ b) = some (a, b) := by
  subst h
  simp [splitTo, List.take_left, List.drop_left]

/-- `split_to` of the whole buffer. -/
theorem splitTo_all (l : List Nat) : splitTo l.length l = some (l, []) := by
  simp [splitTo]

/-- The low-11-bit mask is reduction modulo 2048. -/
theorem and_2047_eq_mod (x : Nat) : x &&& 2047 = x % 2048 := by
  have h := Nat.and_pow_two_sub_one_eq_mod x 11
  norm_num at h
  exact h

/-- The `u16` packing `(flags << 11) | size` of `Packet::serialize`, as
plain arithmetic, for an in-range size word. -/
theorem size_flags_eq (f s : Nat) (hf : f < 32) (hs : s < 2048) :
    ((f <<< 11) % 65536) ||| s = 2048 * f + s := by
  rw [Nat.shiftLeft_eq]
  have h1 : f * 2 ^ 11 = 2048 * f := by ring
  have h2 : 2048 * f % 65536 = 2048 * f := Nat.mod_eq_of_lt (by omega)
  rw [h1, h2]
  have h3 : s < 2 ^ 11 := by norm_num; omega
  have h4 := Nat.mul_add_lt_is_or h3 f
  norm_num at h4
  omega

/-- Extracting the flag bits back out of the packed size word, as
`Packet::deserialize` does with `(flag_size & 0xf800) >> 11`. -/
theorem flags_extract (f s : Nat) (hf : f < 32) (hs : s < 2048) :
    ((2048 * f + s) &&& 63488) >>> 11 = f := by
  have h2048 : (2048 : Nat) = 2 ^ 11 := by norm_num
  have hs' : s < 2 ^ 11 := by omega
  have hmask : (2048 * f + s) &&& 63488 = 2048 * f := by
    apply Nat.eq_of_testBit_eq
    intro i
    rw [Nat.testBit_and]
    have h63488 : (63488 : Nat) = 2 ^ 11 * 31 := by norm_num
    rw [h2048, h63488, Nat.testBit_mul_pow_two_add f hs' i,
      Nat.testBit_mul_pow_two, Nat.testBit_mul_pow_two]
    by_cases hi : i < 11
    · have hng : ¬ i ≥ 11 := by omega
      simp [hi, hng]
    · have hge : i ≥ 11 := by omega
      by_cases hk : i - 11 < 5
      · have h31 : (31 : Nat).testBit (i - 11) = true := by
          have h5 : (31 : Nat) = 2 ^ 5 - 1 := by norm_num
          rw [h5, Nat.testBit_two_pow_sub_one]
          simpa using hk
        simp [hi, hge, h31]
      · have hfb : f.testBit (i - 11) = false := by
          apply Nat.testBit_lt_two_pow
          calc f < 2 ^ 5 := by omega
            _ ≤ 2 ^ (i - 11) := Nat.pow_le_pow_right (by norm_num) (by omega)
        simp [hi, hge, hfb]
  rw [hmask, Nat.shiftRight_eq_div_pow]
  rw [← h2048]
  omega

/-- Extracting the size bits back out of the packed size word. -/
theorem size_extract (f s : Nat) (hs : s < 2048) :
    (2048 * f + s) &&& 2047 = s := by
  rw [and_2047_eq_mod]
  omega

/-- A valid flag set is below 32 (it fits the 5-bit wire field). -/
theorem valid_flags_lt (f : Nat) (h : f &&& PacketFlag.KNOWN = f) : f < 32 := by
  have hle : f &&& PacketFlag.KNOWN ≤ PacketFlag.KNOWN := Nat.and_le_right
  rw [h] at hle
  simp [PacketFlag.KNOWN] at hle
  omega

/-- `PacketFlag::from_bits` succeeds on a valid flag set. -/
theorem from_bits_valid (f : Nat) (h : f &&& PacketFlag.KNOWN = f) :
    PacketFlag.from_bits f = some f := by
  simp [PacketFlag.from_bits, h]

/-- Recomposing a `u16` from its big-endian bytes. -/
theorem u16_recompose (x : Nat) (h : x < 65536) :
    x / 256 % 256 * 256 + x % 256 = x := by
  omega

/-- **C1** (amended): round-tripping `Packet::serialize` through
`Packet::deserialize` restores the packet exactly, provided the packet
has `flags: Some(..)` (any subset of the declared flag bits, the empty
set included), its `u16` fields are in range, and its payload is either
absent or a non-empty byte string of at most 2035 bytes (the 11-bit wire
size field minus the 12-byte header).  The two excluded shapes genuinely
fail to round-trip: see the counterexample theorem. -/
theorem c1_serialize_deserialize_roundtrip
    (f uid ack_id id : Nat) (pl : Option (List Nat))
    (hf : f &&& PacketFlag.KNOWN = f) (hu : uid < 65536)
    (ha : ack_id < 65536) (hi : id < 65536)
    (hpl : pl = none ∨ ∃ l, pl = some l ∧ l ≠ [] ∧ l.length ≤ 2035) :
    Packet.deserialize (Packet.serialize ⟨some f, uid, ack_id, id, pl⟩)
      = some (⟨some f, uid, ack_id, id, pl⟩, []) := by
  have hf32 : f < 32 := valid_flags_lt f hf
  rcases hpl with rfl | ⟨l, rfl, hne, hlen⟩
  · simp only [Packet.serialize, HEADER_SIZE]
    norm_num
    rw [size_flags_eq f 12 hf32 (by norm_num)]
    simp only [u16be, List.cons_append, List.nil_append, List.append_nil,
      Packet.deserialize, getU16, getU32]
    rw [u16_recompose (2048 * f + 12) (by omega), u16_recompose uid hu,
      u16_recompose ack_id ha, u16_recompose id hi,
      flags_extract f 12 hf32 (by norm_num),
      size_extract f 12 (by norm_num), from_bits_valid f hf]
    norm_num [HEADER_SIZE]
  · have hl : l.length % 65536 = l.length := Nat.mod_eq_of_lt (by omega)
    have hs12 : (l.length % 65536 + 12) % 65536 = l.length + 12 := by
      rw [hl]; exact Nat.mod_eq_of_lt (by omega)
    simp only [Packet.serialize, HEADER_SIZE]
    rw [hs12, size_flags_eq f (l.length + 12) hf32 (by omega)]
    simp only [u16be, List.cons_append, List.nil_append, List.append_nil,
      Packet.deserialize, getU16, getU32]
    rw [u16_recompose (2048 * f + (l.length + 12)) (by omega),
      u16_recompose uid hu, u16_recompose ack_id ha, u16_recompose id hi,
      flags_extract f (l.length + 12) hf32 (by omega),
      size_extract f (l.length + 12) (by omega), from_bits_valid f hf]
    have hlpos : 0 < l.length := List.length_pos.mpr hne
    simp only [HEADER_SIZE, Nat.add_sub_cancel]
    rw [if_neg (by omega), if_pos (by omega), splitTo_all]

/-- **C1** witness: a concrete instantiation of the amended round-trip
theorem (flags = HELLO, a one-byte payload). -/
theorem c1_serialize_deserialize_roundtrip_witness :
    Packet.deserialize
        (Packet.serialize ⟨some 2, 0x1337, 5, 7, some [9]⟩)
      = some (⟨some 2, 0x1337, 5, 7, some [9]⟩, []) :=
  c1_serialize_deserialize_roundtrip 2 0x1337 5 7 (some [9]) (by decide)
    (by decide) (by decide) (by decide)
    (Or.inr ⟨[9], rfl, by decide, by decide⟩)

/-- **C1** counterexample: the claim "for every valid packet P, with any
flag set or no flags and any optional payload,
deserialize(serialize(P)) == P" fails on the code.  A packet with
`flags: None` serializes to a zero flag field, which `deserialize` turns
into `Some(PacketFlag::empty())` (`from_bits(0)` is `Some(empty)`), and a
packet with `payload: Some(empty)` deserializes to `payload: None`. -/
theorem c1_serialize_deserialize_roundtrip_cex :
    Packet.deserialize (Packet.serialize ⟨none, 0, 0, 0, none⟩)
        ≠ some (⟨none, 0, 0, 0, none⟩, [])
    ∧ Packet.deserialize (Packet.serialize ⟨none, 0, 0, 0, none⟩)
        = some (⟨some 0, 0, 0, 0, none⟩, [])
    ∧ Packet.deserialize (Packet.serialize ⟨some 2, 0, 0, 0, some []⟩)
        ≠ some (⟨some 2, 0, 0, 0, some []⟩, [])
    ∧ Packet.deserialize (Packet.serialize ⟨some 2, 0, 0, 0, some []⟩)
        = some (⟨some 2, 0, 0, 0, none⟩, []) := by
  refine ⟨by decide, by decide, by decide, by decide⟩

/-- **C9**: serializing `Packet{flags: HELLO, uid: 0x5706, ack_id: 0,
id: 0, payload: 01 00 00 00 00 00 00 00}` produces exactly the twenty
wire bytes `10 14 57 06 00 00 00 00 00 00 00 00 01 00 00 00 00 00 00 00`:
the first word is `(flags << 11) | total_size` big-endian with
`total_size = 12 + 8 = 20`, and the reserved bytes 6-9 are zero. -/
theorem c9_serialize_hello_wire_bytes :
    Packet.serialize
        ⟨some PacketFlag.HELLO, 0x5706, 0, 0,
          some [0x01, 0, 0, 0, 0, 0, 0, 0]⟩
      = [0x10, 0x14, 0x57, 0x06, 0, 0, 0, 0, 0, 0, 0, 0,
         0x01, 0, 0, 0, 0, 0, 0, 0] := by
  decide

/-! ## Engine helper lemmas -/

/-- The counter returned by one loop iteration: unchanged for HELLO and
flagless packets, incremented with the `u16` wrap for ACK_REQUEST. -/
theorem handlePacket_fst (n : Nat) (p : Packet) :
    (handlePacket n p).1
      = if p.is_hello then n
        else if p.ack_request then (n + 1) % 65536 else n := by
  by_cases h1 : p.is_hello
  · simp [handlePacket, h1]
  · by_cases h2 : p.ack_request <;>
      cases hp : p.payload <;> simp [handlePacket, h1, h2, hp]

/-- The ack packets written by one loop iteration. -/
theorem handlePacket_acks (n : Nat) (p : Packet) :
    (handlePacket n p).2.1
      = if p.is_hello then [Packet.new_ack p.uid p.id 0]
        else if p.ack_request then
          [Packet.new_ack p.uid p.id ((n + 1) % 65536)]
        else [] := by
  by_cases h1 : p.is_hello
  · simp [handlePacket, h1]
  · by_cases h2 : p.ack_request <;>
      cases hp : p.payload <;> simp [handlePacket, h1, h2, hp]

/-- The messages and abort flag of one loop iteration: nothing for a
HELLO packet, otherwise the payload decode output. -/
theorem handlePacket_msgs (n : Nat) (p : Packet) :
    ((handlePacket n p).2.2.1, (handlePacket n p).2.2.2)
      = if p.is_hello then ([], false)
        else match p.payload with
          | none => ([], false)
          | some pl => processPayload pl := by
  by_cases h1 : p.is_hello
  · simp [handlePacket, h1]
  · by_cases h2 : p.ack_request <;>
      cases hp : p.payload <;> simp [handlePacket, h1, h2, hp]

/-- **C10**: a received packet carrying the HELLO flag is answered with
the hello-reply ack (`uid = p.uid`, `ack_id = p.id`, `id = 0`) and the
rest of its processing is skipped entirely: the payload is not decoded,
no message is produced, the client counter is not advanced, and no panic
can occur — even when ACK_REQUEST or any other flag accompanies HELLO
(the `continue` in `run` fires before the ACK_REQUEST branch and the
payload loop). -/
theorem c10_hello_skips_all_processing (n : Nat) (p : Packet)
    (h : p.is_hello = true) :
    handlePacket n p = (n, [Packet.new_ack p.uid p.id 0], [], false) := by
  simp [handlePacket, h]

/-- **C10** witness: a packet with flags HELLO|ACK_REQUEST and a payload
that would abort the decoder if it were decoded; it is hello-acked and
skipped, with the counter left at 5. -/
theorem c10_hello_skips_all_processing_witness :
    Packet.is_hello ⟨some 3, 7, 8, 9, some [255]⟩ = true
    ∧ handlePacket 5 ⟨some 3, 7, 8, 9, some [255]⟩
        = (5, [Packet.new_ack 7 9 0], [], false) :=
  ⟨by decide, c10_hello_skips_all_processing 5 ⟨some 3, 7, 8, 9, some [255]⟩
    (by decide)⟩

/-- As long as the `u16` counter cannot wrap — the counter plus the
number of non-HELLO ACK_REQUEST packets in the trace stays below
2^16 — the ids of the acks sent for ACK_REQUEST packets (the acks with a
non-zero id) form the consecutive run `n+1, n+2, ...` when the counter
starts at `n`. -/
theorem runPackets_ackreq_ids (ps : List Packet) :
    ∀ n : Nat,
      n + ps.countP (fun p => !p.is_hello && p.ack_request) < 65536 →
      ∃ m : Nat,
        (((runPackets n ps).2.1.filter (fun a => a.id != 0)).map Packet.id)
          = List.range' (n + 1) m := by
  induction ps with
  | nil => exact fun n _ => ⟨0, by simp [runPackets]⟩
  | cons p ps ih =>
    intro n hbound
    rcases hh : handlePacket n p with ⟨n1, acks1, msgs1, pan⟩
    have hfst := handlePacket_fst n p
    have hacks := handlePacket_acks n p
    rw [hh] at hfst hacks
    simp only at hfst hacks
    cases pan with
    | true =>
      simp only [runPackets, hh]
      by_cases h1 : p.is_hello
      · refine ⟨0, ?_⟩
        simp [hacks, h1, Packet.new_ack, Packet.new]
      · by_cases h2 : p.ack_request
        · have hc : (p :: ps).countP (fun q => !q.is_hello && q.ack_request)
              = ps.countP (fun q => !q.is_hello && q.ack_request) + 1 := by
            simp [List.countP_cons, h1, h2]
          rw [hc] at hbound
          have hmod : (n + 1) % 65536 = n + 1 := Nat.mod_eq_of_lt (by omega)
          refine ⟨1, ?_⟩
          simp [hacks, h1, h2, hmod, Packet.new_ack, Packet.new,
            List.range']
        · refine ⟨0, ?_⟩
          simp [hacks, h1, h2]
    | false =>
      simp only [runPackets, hh]
      by_cases h1 : p.is_hello
      · have hc : (p :: ps).countP (fun q => !q.is_hello && q.ack_request)
            = ps.countP (fun q => !q.is_hello && q.ack_request) := by
          simp [List.countP_cons, h1]
        rw [hc] at hbound
        obtain ⟨m, hm⟩ := ih n hbound
        refine ⟨m, ?_⟩
        rcases hr : runPackets n1 ps with ⟨n2, acks2, msgs2, ab⟩
        rw [hfst, if_pos h1] at hr
        rw [hr] at hm
        simp only at hm
        simp [hacks, h1, Packet.new_ack, Packet.new, hm]
      · by_cases h2 : p.ack_request
        · have hc : (p :: ps).countP (fun q => !q.is_hello && q.ack_request)
              = ps.countP (fun q => !q.is_hello && q.ack_request) + 1 := by
            simp [List.countP_cons, h1, h2]
          rw [hc] at hbound
          have hmod : (n + 1) % 65536 = n + 1 := Nat.mod_eq_of_lt (by omega)
          obtain ⟨m, hm⟩ := ih (n + 1) (by omega)
          refine ⟨m + 1, ?_⟩
          rcases hr : runPackets n1 ps with ⟨n2, acks2, msgs2, ab⟩
          rw [hfst, if_neg h1, if_pos h2, hmod] at hr
          rw [hr] at hm
          simp only at hm
          simp [hacks, h1, h2, hmod, Packet.new_ack, Packet.new, hm,
            List.range']
        · have hc : (p :: ps).countP (fun q => !q.is_hello && q.ack_request)
              = ps.countP (fun q => !q.is_hello && q.ack_request) := by
            simp [List.countP_cons, h2]
          rw [hc] at hbound
          obtain ⟨m, hm⟩ := ih n hbound
          refine ⟨m, ?_⟩
          rcases hr : runPackets n1 ps with ⟨n2, acks2, msgs2, ab⟩
          rw [hfst, if_neg h1, if_neg h2] at hr
          rw [hr] at hm
          simp only at hm
          simp [hacks, h1, h2, hm]

/-- Counter reachability: a run of `k` consecutive ACK_REQUEST packets
with no payload advances the counter from `n` to `(n + k) % 65536`, so
every counter value below 2^16 — in particular 65535 — is reached. -/
theorem runPackets_replicate_counter (p : Packet)
    (hh : p.is_hello = false) (ha : p.ack_request = true)
    (hp : p.payload = none) :
    ∀ (k n : Nat), n < 65536 →
      (runPackets n (List.replicate k p)).1 = (n + k) % 65536 := by
  intro k
  induction k with
  | zero =>
    intro n hn
    simp [runPackets, Nat.mod_eq_of_lt hn]
  | succ k ih =>
    intro n hn
    rw [List.replicate_succ]
    have hstep : handlePacket n p
        = ((n + 1) % 65536,
           [Packet.new_ack p.uid p.id ((n + 1) % 65536)], [], false) := by
      simp [handlePacket, hh, ha, hp]
    simp only [runPackets, hstep]
    rcases hr : runPackets ((n + 1) % 65536) (List.replicate k p)
      with ⟨n2, acks2, msgs2, ab⟩
    have h2 := ih ((n + 1) % 65536) (Nat.mod_lt _ (by norm_num))
    rw [hr] at h2
    simp only at h2
    simp only [hr]
    omega

/-- **C2** (amended): every outbound ack `A` for a received packet `P`
carries `A.uid = P.uid` and `A.ack_id = P.id` (and `flags = ACK`, no
payload); a HELLO packet is acked with `id = 0` without advancing the
counter; an ACK_REQUEST (non-HELLO) packet is acked with the wrapping
`u16` increment `(n + 1) % 2^16` of the counter; and over any trace
started with `packet_id = 0` that contains fewer than 2^16 ACK_REQUEST
packets, the ids of the ACK_REQUEST acks (the non-zero ids) are exactly
`1, 2, 3, ...` — strict increase by exactly 1 holds only until the
counter wraps at the 65536th such ack, where the id becomes 0 (see the
counterexample). -/
theorem c2_ack_fields_and_counter :
    (∀ (n : Nat) (p : Packet), ∀ a ∈ (handlePacket n p).2.1,
        a.flags = some PacketFlag.ACK ∧ a.uid = p.uid ∧ a.ack_id = p.id
          ∧ a.payload = none)
    ∧ (∀ (n : Nat) (p : Packet), p.is_hello = true →
        (handlePacket n p).2.1 = [Packet.new_ack p.uid p.id 0]
          ∧ (handlePacket n p).1 = n)
    ∧ (∀ (n : Nat) (p : Packet), p.is_hello = false → p.ack_request = true →
        (handlePacket n p).2.1
            = [Packet.new_ack p.uid p.id ((n + 1) % 65536)]
          ∧ (handlePacket n p).1 = (n + 1) % 65536)
    ∧ (∀ ps : List Packet,
        ps.countP (fun p => !p.is_hello && p.ack_request) < 65536 →
        ∃ m,
          (((runPackets 0 ps).2.1.filter (fun a => a.id != 0)).map
              Packet.id)
            = List.range' 1 m) := by
  refine ⟨?_, ?_, ?_, ?_⟩
  · intro n p a ha
    rw [handlePacket_acks] at ha
    split_ifs at ha with h1 h2 <;> simp at ha <;>
      simp [ha, Packet.new_ack, Packet.new]
  · intro n p h1
    rw [handlePacket_acks, handlePacket_fst]
    simp [h1]
  · intro n p h1 h2
    rw [handlePacket_acks, handlePacket_fst]
    simp [h1, h2]
  · exact fun ps h => runPackets_ackreq_ids ps 0 (by omega)

/-- **C2** witness: the first ACK_REQUEST packet of a session (counter 0)
is acked with `uid = P.uid = 7`, `ack_id = P.id = 42`, `id = 1`. -/
theorem c2_ack_fields_and_counter_witness :
    (handlePacket 0 ⟨some 1, 7, 9, 42, none⟩).2.1 = [Packet.new_ack 7 42 1]
    ∧ (handlePacket 0 ⟨some 1, 7, 9, 42, none⟩).1 = 1 := by
  have h := c2_ack_fields_and_counter
  exact h.2.2.1 0 ⟨some 1, 7, 9, 42, none⟩ (by decide) (by decide)

/-- **C2** counterexample: the claim that the counter "strictly increases
by exactly 1 with each subsequent ACK_REQUEST ack" is false on the code:
the counter is a `u16`.  After 65535 ACK_REQUEST packets the counter is
65535 (a reachable state), and the 65536th such packet is acked with
`id = (65535 + 1) % 2^16 = 0`, which is not an increase. -/
theorem c2_ack_fields_and_counter_cex :
    (runPackets 0 (List.replicate 65535 ⟨some 1, 7, 9, 42, none⟩)).1 = 65535
    ∧ handlePacket 65535 ⟨some 1, 7, 9, 42, none⟩
        = (0, [Packet.new_ack 7 42 0], [], false)
    ∧ (Packet.new_ack 7 42 0).id = 0
    ∧ ¬ (65535 : Nat) < (Packet.new_ack 7 42 0).id := by
  refine ⟨?_, by decide, by decide, by decide⟩
  have h := runPackets_replicate_counter ⟨some 1, 7, 9, 42, none⟩
    (by decide) (by decide) (by decide) 65535 0 (by norm_num)
  rw [show (0 + 65535) % 65536 = 65535 from by norm_num] at h
  exact h

/-- Payload decoding only ever produces `Command` and `ParsingFailed`
messages. -/
theorem processPayload_no_connected (pl : List Nat) :
    Message.connected ∉ (processPayload pl).1 := by
  induction pl using processPayload.induct with
  | case1 x hx =>
    rw [processPayload.eq_def]
    simp [hx]
  | case2 x hx h =>
    rw [processPayload.eq_def]
    rw [if_neg hx]
    split
    next => simp
    next c rest h2 =>
      rw [h] at h2
      exact absurd h2 (by simp)
    next e rest h2 =>
      rw [h] at h2
      exact absurd h2 (by simp)
  | case3 x hx c rest h ih =>
    intro hmem
    rw [processPayload.eq_def] at hmem
    rw [if_neg hx] at hmem
    split at hmem
    next => simp at hmem
    next c2 rest2 h2 =>
      rw [h] at h2
      injection h2 with h3
      have hr : rest2 = rest := congrArg Prod.snd h3.symm
      subst hr
      simp at hmem
      exact ih hmem
    next e2 rest2 h2 =>
      rw [h] at h2
      exact absurd h2 (by simp)
  | case4 x hx e rest h ih =>
    intro hmem
    rw [processPayload.eq_def] at hmem
    rw [if_neg hx] at hmem
    split at hmem
    next => simp at hmem
    next c2 rest2 h2 =>
      rw [h] at h2
      exact absurd h2 (by simp)
    next e2 rest2 h2 =>
      rw [h] at h2
      injection h2 with h3
      have hr : rest2 = rest := congrArg Prod.snd h3.symm
      subst hr
      simp at hmem
      exact ih hmem

/-- The engine loop never pushes a `Connected` message. -/
theorem runPackets_no_connected (ps : List Packet) :
    ∀ n : Nat, Message.connected ∉ (runPackets n ps).2.2.1 := by
  induction ps with
  | nil => simp [runPackets]
  | cons p ps ih =>
    intro n
    rcases hh : handlePacket n p with ⟨n1, acks1, msgs1, pan⟩
    have hmsgs := handlePacket_msgs n p
    rw [hh] at hmsgs
    simp only at hmsgs
    have hm1 : Message.connected ∉ msgs1 := by
      by_cases h1 : p.is_hello
      · rw [if_pos h1] at hmsgs
        have h0 : msgs1 = [] := congrArg Prod.fst hmsgs
        simp [h0]
      · rw [if_neg h1] at hmsgs
        cases hp : p.payload with
        | none =>
          rw [hp] at hmsgs
          have h0 : msgs1 = [] := congrArg Prod.fst hmsgs
          simp [h0]
        | some pl =>
          rw [hp] at hmsgs
          have h0 : msgs1 = (processPayload pl).1 := congrArg Prod.fst hmsgs
          rw [h0]
          exact processPayload_no_connected pl
    cases pan with
    | true =>
      simp only [runPackets, hh]
      simpa using hm1
    | false =>
      simp only [runPackets, hh]
      rcases hr : runPackets n1 ps with ⟨n2, acks2, msgs2, ab⟩
      have h2 := ih n1
      rw [hr] at h2
      simp only at h2
      simp [hm1, h2]

/-- **C5** (amended): after a successful open, the engine's first action
is to write the HELLO handshake packet to the socket, but it never emits
a `Connected` message: `Message::Connected` is declared in `src/lib.rs`
yet `run` contains no send of it, so the first message a consumer
receives is a `Command`, `ParsingFailed` or `Disconnected`, never
`Connected`. -/
theorem c5_no_connected_message (ps : List Packet) :
    (run ps).1.head? = some Packet.new_hello_packet
    ∧ Message.connected ∉ (run ps).2 := by
  constructor
  · simp [run]
  · simp only [run]
    exact runPackets_no_connected ps 0

/-- **C5** counterexample: the claim that the first message of a
successfully opened session is `Connected` is false.  For a session that
receives one ACK_REQUEST packet carrying a `_ver` record, the first (and
only) message the consumer receives is `Command(Version(2, 28))`, and
`Connected` appears nowhere in the trace. -/
theorem c5_no_connected_message_cex :
    (run [⟨some 1, 0xBEEF, 0, 42,
        some [0, 12, 0, 0, 95, 118, 101, 114, 0, 2, 0, 28]⟩]).2
      = [Message.command (Command.Version ⟨2, 28⟩)]
    ∧ (run [⟨some 1, 0xBEEF, 0, 42,
        some [0, 12, 0, 0, 95, 118, 101, 114, 0, 2, 0, 28]⟩]).2.head?
      ≠ some Message.connected := by
  have hparse : Command.parse [0, 12, 0, 0, 95, 118, 101, 114, 0, 2, 0, 28]
      = some (.ok (.Version ⟨2, 28⟩), []) := by decide
  have hnil : processPayload [] = ([], false) := by
    rw [processPayload.eq_def]
    simp
  have hpp : processPayload [0, 12, 0, 0, 95, 118, 101, 114, 0, 2, 0, 28]
      = ([Message.command (Command.Version ⟨2, 28⟩)], false) := by
    rw [processPayload.eq_def]
    rw [if_neg (by decide)]
    split
    next h2 => rw [hparse] at h2; exact absurd h2 (by simp)
    next c2 rest2 h2 =>
      rw [hparse] at h2
      injection h2 with h3
      have hr : rest2 = [] := congrArg Prod.snd h3.symm
      have hc : Except.ok (ε := Command.Error) c2
          = Except.ok (Command.Version ⟨2, 28⟩) := congrArg Prod.fst h3.symm
      injection hc with hc2
      subst hr
      rw [hnil, hc2]
    next e2 rest2 h2 =>
      rw [hparse] at h2
      exact absurd h2 (by simp)
  have hh : handlePacket 0 ⟨some 1, 0xBEEF, 0, 42,
      some [0, 12, 0, 0, 95, 118, 101, 114, 0, 2, 0, 28]⟩
      = (1, [Packet.new_ack 0xBEEF 42 1],
         [Message.command (Command.Version ⟨2, 28⟩)], false) := by
    have h1 : Packet.is_hello ⟨some 1, 0xBEEF, 0, 42,
        some [0, 12, 0, 0, 95, 118, 101, 114, 0, 2, 0, 28]⟩ = false := by
      decide
    have h2 : Packet.ack_request ⟨some 1, 0xBEEF, 0, 42,
        some [0, 12, 0, 0, 95, 118, 101, 114, 0, 2, 0, 28]⟩ = true := by
      decide
    simp [handlePacket, h1, h2, hpp]
  constructor
  · simp [run, runPackets, hh]
  · simp [run, runPackets, hh]

/-- Decoding an empty payload: no records, no messages, no panic. -/
theorem processPayload_nil : processPayload [] = ([], false) := by
  rw [processPayload.eq_def]
  simp

/-- **C8** (amended): a received packet whose 5-bit flag field contains a
bit outside the declared set {ACK_REQUEST, HELLO, RESEND, ACK} is not
handled as if only its known bits were set: `PacketFlag::from_bits`
returns `None` for the whole field, so the deserialized packet carries
`flags: None` and triggers no flag-driven behavior at all — it is not
hello-acked and not acknowledged even when ACK_REQUEST is among its bits,
and the counter is untouched — while its payload is still decoded. -/
theorem c8_unknown_flag_bits_drop_all_flags
    (f uid ack_id id n : Nat)
    (hf5 : f < 32) (hunk : f &&& PacketFlag.KNOWN ≠ f)
    (hu : uid < 65536) (ha : ack_id < 65536) (hi : id < 65536) :
    PacketFlag.from_bits f = none
    ∧ Packet.deserialize
        (u16be (2048 * f + 12) ++ u16be uid ++ u16be ack_id ++
          [0, 0, 0, 0] ++ u16be id)
        = some (⟨none, uid, ack_id, id, none⟩, [])
    ∧ (∀ (uid2 ack_id2 id2 : Nat) (pl : List Nat),
        Packet.is_hello ⟨none, uid2, ack_id2, id2, some pl⟩ = false
        ∧ Packet.ack_request ⟨none, uid2, ack_id2, id2, some pl⟩ = false
        ∧ handlePacket n ⟨none, uid2, ack_id2, id2, some pl⟩
            = (n, [], (processPayload pl).1, (processPayload pl).2)) := by
  refine ⟨by simp [PacketFlag.from_bits, hunk], ?_, ?_⟩
  · simp only [List.cons_append, List.nil_append, u16be,
      Packet.deserialize, getU16, getU32]
    rw [u16_recompose (2048 * f + 12) (by omega), u16_recompose uid hu,
      u16_recompose ack_id ha, u16_recompose id hi,
      flags_extract f 12 hf5 (by norm_num), size_extract f 12 (by norm_num)]
    simp [PacketFlag.from_bits, hunk, HEADER_SIZE]
  · intro uid2 ack_id2 id2 pl
    refine ⟨rfl, rfl, ?_⟩
    simp [handlePacket, Packet.is_hello, Packet.ack_request]

/-- **C8** witness: flag field 9 = ACK_REQUEST | 0x08 (an unknown bit):
the packet deserializes with no flags, is not acknowledged, and an
empty-payload decode still runs. -/
theorem c8_unknown_flag_bits_drop_all_flags_witness :
    PacketFlag.from_bits 9 = none
    ∧ Packet.deserialize
        (u16be (2048 * 9 + 12) ++ u16be 0xBEEF ++ u16be 0 ++
          [0, 0, 0, 0] ++ u16be 7)
        = some (⟨none, 0xBEEF, 0, 7, none⟩, [])
    ∧ handlePacket 3 ⟨none, 1, 2, 4, some []⟩ = (3, [], [], false) := by
  have h := c8_unknown_flag_bits_drop_all_flags 9 0xBEEF 0 7 3
    (by decide) (by decide) (by decide) (by decide) (by decide)
  refine ⟨h.1, h.2.1, ?_⟩
  have h3 := (h.2.2 1 2 4 []).2.2
  rw [h3, processPayload_nil]

/-- **C8** counterexample: the claim that unknown flag bits are silently
ignored and the packet is "handled exactly as if only its known flag
bits were set" is false.  The wire packet with flag field
`0x09 = ACK_REQUEST | 0x08` deserializes to `flags: None`
(`from_bits` rejects the unknown bit), its `ack_request()` is false, and
the engine sends no ack for it — whereas the same packet with flag field
`0x01` (ACK_REQUEST alone) is acknowledged with the incremented
counter. -/
theorem c8_unknown_flag_bits_drop_all_flags_cex :
    Packet.deserialize [0x48, 0x0C, 0, 1, 0, 2, 0, 0, 0, 0, 0, 3]
      = some (⟨none, 1, 2, 3, none⟩, [])
    ∧ Packet.ack_request ⟨none, 1, 2, 3, none⟩ = false
    ∧ handlePacket 5 ⟨none, 1, 2, 3, none⟩ = (5, [], [], false)
    ∧ handlePacket 5 ⟨some 1, 1, 2, 3, none⟩
        = (6, [Packet.new_ack 1 3 6], [], false) := by
  refine ⟨by decide, by decide, by decide, by decide⟩

/-- **C3** (amended): a truncated record — fewer than 8 payload bytes
remaining at the start of a record, or fewer than `size - 8` bytes after
a header declaring `size` — makes `Command::parse` panic (the `bytes`
crate reads and `split_to` panic past the end of the buffer; modelled
`none`).  There is no `Truncated` error value: the decode loop emits no
`ParsingFailed` message for the record and the session task aborts
instead of continuing. -/
theorem c3_truncation_panics_no_error :
    (∀ l : List Nat, l.length < 8 → Command.parse l = none)
    ∧ (∀ (b0 b1 x y : Nat) (tag rest : List Nat), tag.length = 4 →
        8 ≤ b0 * 256 + b1 → rest.length < b0 * 256 + b1 - 8 →
        Command.parse (b0 :: b1 :: x :: y :: (tag ++ rest)) = none)
    ∧ (∀ l : List Nat, l ≠ [] → Command.parse l = none →
        processPayload l = ([], true)) := by
  refine ⟨?_, ?_, ?_⟩
  · intro l hlen
    rcases l with _ | ⟨a, l⟩
    · simp [Command.parse, getU16]
    rcases l with _ | ⟨b, l⟩
    · simp [Command.parse, getU16]
    rcases l with _ | ⟨c, l⟩
    · simp [Command.parse, getU16]
    rcases l with _ | ⟨d, l⟩
    · simp [Command.parse, getU16]
    simp only [List.length_cons] at hlen
    simp only [Command.parse, getU16]
    rw [show splitTo 4 l = none from by simp [splitTo]; omega]
  · intro b0 b1 x y tag rest htag hsz hrest
    simp only [Command.parse, getU16]
    rw [splitTo_append 4 tag rest htag]
    dsimp only
    rw [if_neg (by omega)]
    rw [show splitTo (b0 * 256 + b1 - 8) rest = none from by
      unfold splitTo
      rw [if_neg (by omega)]]
  · intro l hne hnone
    rw [processPayload.eq_def]
    rw [if_neg (by simpa [List.isEmpty_iff] using hne)]
    split
    next => rfl
    next c2 rest2 h2 =>
      rw [hnone] at h2
      exact absurd h2 (by simp)
    next e2 rest2 h2 =>
      rw [hnone] at h2
      exact absurd h2 (by simp)

/-- **C3** witness: a one-byte payload and a record declaring size 20
with only 3 body bytes both panic, and the one-byte payload aborts the
decode loop with no message. -/
theorem c3_truncation_panics_no_error_witness :
    Command.parse [0] = none
    ∧ Command.parse (0 :: 20 :: 0 :: 0 :: ([95, 118, 101, 114] ++ [1, 2, 3]))
        = none
    ∧ processPayload [0] = ([], true) := by
  have h := c3_truncation_panics_no_error
  refine ⟨h.1 [0] (by decide), ?_, ?_⟩
  · exact h.2.1 0 20 0 0 [95, 118, 101, 114] [1, 2, 3]
      (by decide) (by decide) (by decide)
  · exact h.2.2 [0] (by decide) (h.1 [0] (by decide))

/-- **C3** counterexample: the claim that truncation yields a `Truncated`
error which is non-fatal (record skipped, `ParsingFailed` emitted,
processing continues) is false on the code.  `command::Error` has no
`Truncated` variant; on the one-byte payload `[0x00]` the decoder panics
(`none`, no error value at all) and the decode loop aborts having emitted
no message. -/
theorem c3_truncation_panics_no_error_cex :
    Command.parse [0] = none
    ∧ (¬ ∃ (e : Command.Error) (rest : List Nat),
        Command.parse [0] = some (Except.error e, rest))
    ∧ processPayload [0] = ([], true) := by
  have h0 : Command.parse [0] = none := by decide
  refine ⟨h0, ?_, ?_⟩
  · rintro ⟨e, rest, h⟩
    rw [h0] at h
    exact Option.noConfusion h
  · rw [processPayload.eq_def]
    rw [if_neg (by decide)]
    split
    next => rfl
    next c2 rest2 h2 =>
      rw [h0] at h2
      exact Option.noConfusion h2
    next e2 rest2 h2 =>
      rw [h0] at h2
      exact Option.noConfusion h2

/-- A tag outside the dispatch table falls through to the catch-all arm:
`UnknownCommand` when the tag is valid UTF-8, `Utf8Error` otherwise. -/
theorem parseBody_unknown_tag (cmd data : List Nat) (h : cmd ∉ knownTags) :
    Command.parseBody cmd data
      = some (.error (if isValidUtf8 cmd then .unknownCommand cmd
          else .utf8Error)) := by
  simp only [knownTags, List.mem_cons, List.not_mem_nil, or_false] at h
  push_neg at h
  obtain ⟨h1, h2, h3, h4, h5, h6, h7, h8, h9, h10, h11, h12, h13, h14,
    h15, h16, h17, h18, h19, h20, h21, h22, h23, h24, h25, h26, h27,
    h28⟩ := h
  simp only [Command.parseBody, if_neg h1, if_neg h2, if_neg h3, if_neg h4,
    if_neg h5, if_neg h6, if_neg h7, if_neg h8, if_neg h9, if_neg h10,
    if_neg h11, if_neg h12, if_neg h13, if_neg h14, if_neg h15, if_neg h16,
    if_neg h17, if_neg h18, if_neg h19, if_neg h20, if_neg h21, if_neg h22,
    if_neg h23, if_neg h24, if_neg h25, if_neg h26, if_neg h27, if_neg h28]
  by_cases hu : isValidUtf8 cmd <;> simp [hu]

/-- One iteration of the decode loop on a successfully decoded record:
the `Command` message is pushed and the loop continues on the unconsumed
suffix. -/
theorem processPayload_step_ok (l : List Nat) (hne : l ≠ [])
    {c : Command} {rest : List Nat}
    (h : Command.parse l = some (.ok c, rest)) :
    processPayload l
      = (Message.command c :: (processPayload rest).1,
         (processPayload rest).2) := by
  rw [processPayload.eq_def, if_neg (by simpa [List.isEmpty_iff] using hne)]
  split
  next h2 =>
    rw [h] at h2
    exact absurd h2 (by simp)
  next c2 rest2 h2 =>
    rw [h] at h2
    injection h2 with h3
    have hr0 : Except.ok (ε := Command.Error) c = Except.ok c2 :=
      congrArg Prod.fst h3
    injection hr0 with hc
    have hr1 : rest = rest2 := congrArg Prod.snd h3
    subst hr1
    subst hc
    rfl
  next e2 rest2 h2 =>
    rw [h] at h2
    injection h2 with h3
    have hr0 : Except.ok (ε := Command.Error) c = Except.error e2 :=
      congrArg Prod.fst h3
    exact absurd hr0 (by simp)

/-- One iteration of the decode loop on a record that decodes to a
recoverable error: the `ParsingFailed` message is pushed and the loop
continues on the unconsumed suffix. -/
theorem processPayload_step_err (l : List Nat) (hne : l ≠ [])
    {e : Command.Error} {rest : List Nat}
    (h : Command.parse l = some (.error e, rest)) :
    processPayload l
      = (Message.parsingFailed e :: (processPayload rest).1,
         (processPayload rest).2) := by
  rw [processPayload.eq_def, if_neg (by simpa [List.isEmpty_iff] using hne)]
  split
  next h2 =>
    rw [h] at h2
    exact absurd h2 (by simp)
  next c2 rest2 h2 =>
    rw [h] at h2
    injection h2 with h3
    have hr0 : Except.error (α := Command) e = Except.ok c2 :=
      congrArg Prod.fst h3
    exact absurd hr0 (by simp)
  next e2 rest2 h2 =>
    rw [h] at h2
    injection h2 with h3
    have hr0 : Except.error (α := Command) e = Except.error e2 :=
      congrArg Prod.fst h3
    injection hr0 with he
    have hr1 : rest = rest2 := congrArg Prod.snd h3
    subst hr1
    subst he
    rfl

/-- **C4** (amended): a record whose 4-byte tag is not in the dispatch
table decodes to an error — `UnknownCommand(tag)` when the tag is valid
UTF-8, `Utf8Error` otherwise (`String::from_utf8(cmd)?` runs before
`UnknownCommand` is built) — surfaced as one `ParsingFailed` message, and
the stream position is advanced by the record's declared `size`, so the
records after it in the same payload decode exactly as they would on
their own. -/
theorem c4_unknown_tag_skipped_stream_intact
    (x y : Nat) (tag body rest : List Nat)
    (htag : tag.length = 4) (hunk : tag ∉ knownTags)
    (hlen : body.length + 8 < 65536) :
    Command.parse (u16be (body.length + 8) ++ x :: y :: (tag ++ (body ++ rest)))
      = some (.error (if isValidUtf8 tag then .unknownCommand tag
          else .utf8Error), rest)
    ∧ processPayload
        (u16be (body.length + 8) ++ x :: y :: (tag ++ (body ++ rest)))
      = (Message.parsingFailed (if isValidUtf8 tag then .unknownCommand tag
            else .utf8Error) :: (processPayload rest).1,
         (processPayload rest).2) := by
  have hp : Command.parse
      (u16be (body.length + 8) ++ x :: y :: (tag ++ (body ++ rest)))
      = some (.error (if isValidUtf8 tag then .unknownCommand tag
          else .utf8Error), rest) := by
    simp only [Command.parse]
    rw [getU16_u16be _ _ (by omega)]
    simp only [getU16]
    rw [splitTo_append 4 tag (body ++ rest) htag]
    dsimp only
    rw [if_neg (by omega), Nat.add_sub_cancel,
      splitTo_append body.length body rest rfl]
    dsimp only
    rw [parseBody_unknown_tag tag body hunk]
  refine ⟨hp, ?_⟩
  rw [processPayload_step_err _ (by simp [u16be]) hp]

/-- **C4** witness: the spec's own example — an unknown record `XyZw`
(size 8, empty body) followed by a well-formed `Powr` record (size 9,
body `0x03`) yields `ParsingFailed(UnknownCommand("XyZw"))` and then
`Command(PowerState{primary: true, secondary: true})`. -/
theorem c4_unknown_tag_skipped_stream_intact_witness :
    Command.parse [0, 8, 0, 0, 88, 121, 90, 119,
        0, 9, 0, 0, 80, 111, 119, 114, 3]
      = some (.error (.unknownCommand [88, 121, 90, 119]),
          [0, 9, 0, 0, 80, 111, 119, 114, 3])
    ∧ processPayload [0, 8, 0, 0, 88, 121, 90, 119,
        0, 9, 0, 0, 80, 111, 119, 114, 3]
      = ([Message.parsingFailed (.unknownCommand [88, 121, 90, 119]),
          Message.command (.PowerState ⟨true, true⟩)], false) := by
  have h := c4_unknown_tag_skipped_stream_intact 0 0 [88, 121, 90, 119] []
    [0, 9, 0, 0, 80, 111, 119, 114, 3] (by decide) (by decide) (by decide)
  have hv : isValidUtf8 [88, 121, 90, 119] = true := by decide
  have hparse2 : Command.parse [0, 9, 0, 0, 80, 111, 119, 114, 3]
      = some (.ok (.PowerState ⟨true, true⟩), []) := by decide
  have hpp2 : processPayload [0, 9, 0, 0, 80, 111, 119, 114, 3]
      = ([Message.command (.PowerState ⟨true, true⟩)], false) := by
    rw [processPayload_step_ok _ (by decide) hparse2, processPayload_nil]
  obtain ⟨ha, hb⟩ := h
  rw [hv] at ha hb
  simp only [if_true] at ha hb
  rw [hpp2] at hb
  exact ⟨ha, hb⟩

/-- **C4** counterexample: the claim that every record with an
uncatalogued tag yields an `UnknownCommand` error is false when the tag
bytes are not valid UTF-8: the record with tag `FF FF FF FF` (size 8)
decodes to `Utf8Error`, not `UnknownCommand` — though the stream position
still advances past it. -/
theorem c4_unknown_tag_skipped_stream_intact_cex :
    Command.parse [0, 8, 0, 0, 255, 255, 255, 255]
      = some (.error Command.Error.utf8Error, [])
    ∧ Command.Error.utf8Error
      ≠ Command.Error.unknownCommand [255, 255, 255, 255] := by
  exact ⟨by decide, by decide⟩

/-- **C6** (amended): records tagged `KeOn` and `KeBP` are not in
`Command::parse`'s dispatch table: they fall through to the catch-all
arm and yield `UnknownCommand("KeOn")` / `UnknownCommand("KeBP")`, even
though `src/upstreamkeyer.rs` defines working `KeyerOnAir::parse` and
`KeyerBaseProperties::parse` decoders (never called, and `Command` has no
corresponding variants). -/
theorem c6_keyer_tags_treated_as_unknown (x y : Nat) (body rest : List Nat)
    (hlen : body.length + 8 < 65536) :
    Command.parse (u16be (body.length + 8) ++ x :: y ::
        ([75, 101, 79, 110] ++ (body ++ rest)))
      = some (.error (.unknownCommand [75, 101, 79, 110]), rest)
    ∧ Command.parse (u16be (body.length + 8) ++ x :: y ::
        ([75, 101, 66, 80] ++ (body ++ rest)))
      = some (.error (.unknownCommand [75, 101, 66, 80]), rest)
    ∧ (∀ (me keyer oa : Nat) (r : List Nat),
        KeyerOnAir.parse (me :: keyer :: oa :: r)
          = some (⟨me, keyer, oa == 1⟩, r)) := by
  refine ⟨?_, ?_, fun me keyer oa r => rfl⟩
  · simp only [Command.parse]
    rw [getU16_u16be _ _ (by omega)]
    simp only [getU16]
    rw [splitTo_append 4 [75, 101, 79, 110] (body ++ rest) (by decide)]
    dsimp only
    rw [if_neg (by omega), Nat.add_sub_cancel,
      splitTo_append body.length body rest rfl]
    dsimp only
    rw [parseBody_unknown_tag [75, 101, 79, 110] body (by decide)]
    rw [show isValidUtf8 [75, 101, 79, 110] = true from by decide]
    simp
  · simp only [Command.parse]
    rw [getU16_u16be _ _ (by omega)]
    simp only [getU16]
    rw [splitTo_append 4 [75, 101, 66, 80] (body ++ rest) (by decide)]
    dsimp only
    rw [if_neg (by omega), Nat.add_sub_cancel,
      splitTo_append body.length body rest rfl]
    dsimp only
    rw [parseBody_unknown_tag [75, 101, 66, 80] body (by decide)]
    rw [show isValidUtf8 [75, 101, 66, 80] = true from by decide]
    simp

/-- **C6** witness: a size-11 `KeOn` record with body `01 02 01` decodes
to `UnknownCommand("KeOn")`, while the (unreached) `KeyerOnAir::parse`
would have decoded that body as `me=1, keyer=2, on_air=true`. -/
theorem c6_keyer_tags_treated_as_unknown_witness :
    Command.parse [0, 11, 0, 0, 75, 101, 79, 110, 1, 2, 1]
      = some (.error (.unknownCommand [75, 101, 79, 110]), [])
    ∧ KeyerOnAir.parse [1, 2, 1] = some (⟨1, 2, true⟩, []) := by
  have h := c6_keyer_tags_treated_as_unknown 0 0 [1, 2, 1] [] (by decide)
  exact ⟨h.1, h.2.2 1 2 1 []⟩

/-- **C6** counterexample: the claim that well-formed `KeOn` and `KeBP`
records decode to `KeyerOnAir` / `KeyerBaseProperties` variants rather
than being treated as unknown is false: a well-formed `KeOn` record
(size 11, body `01 02 01`) and a well-formed `KeBP` record (size 28)
both decode to `UnknownCommand` errors. -/
theorem c6_keyer_tags_treated_as_unknown_cex :
    Command.parse [0, 11, 0, 0, 75, 101, 79, 110, 1, 2, 1]
      = some (.error (.unknownCommand [75, 101, 79, 110]), [])
    ∧ Command.parse [0, 28, 0, 0, 75, 101, 66, 80,
        0, 1, 0, 0, 0, 1, 0, 100, 0, 200, 1, 0,
        0, 10, 0, 20, 0, 30, 0, 40]
      = some (.error (.unknownCommand [75, 101, 66, 80]), []) := by
  exact ⟨by decide, by decide⟩

/-- Evaluation of `Source::parse` on a full-length `InPr` body with
UTF-8-valid name fields, leaving the three `from_bits(..).unwrap()`
outcomes symbolic. -/
theorem source_parse_eval
    (i0 i1 : Nat) (nm sn : List Nat)
    (k0 k1 a0 a1 c0 c1 st sk fn me : Nat) (extra : List Nat)
    (hnm : nm.length = 20) (hsn : sn.length = 4)
    (hvn : isValidUtf8 (nm.takeWhile (fun b => b ≠ 0)) = true)
    (hvs : isValidUtf8 (sn.takeWhile (fun b => b ≠ 0)) = true) :
    Source.parse (i0 :: i1 :: (nm ++ (sn ++ (k0 :: k1 :: a0 :: a1 :: c0 ::
        c1 :: st :: sk :: fn :: me :: extra))))
      = match InputFlags.from_bits (a0 * 256 + a1) with
        | none => none
        | some available_inputs =>
          match FunctionFlags.from_bits fn with
          | none => none
          | some available_functions =>
            match MixEffectFlags.from_bits me with
            | none => none
            | some available_on_me =>
              some (.ok ⟨i0 * 256 + i1,
                some (nm.takeWhile (fun b => b ≠ 0)),
                some (sn.takeWhile (fun b => b ≠ 0)), available_inputs,
                Input.from_u16 (c0 * 256 + c1), SourceType.from_u8 st,
                available_functions, available_on_me⟩) := by
  simp only [Source.parse, getU16, getU8]
  rw [splitTo_append 20 nm _ hnm]
  dsimp only
  rw [splitTo_append 4 sn _ hsn]
  simp only [parse_str, hvn, hvs, if_true]

set_option maxHeartbeats 2000000 in
/-- **C7** (amended): decoding a full-length `InPr` body never fails on
an unknown enum value — a `source_type` outside the catalog survives as
`Unknown(raw)` and an `active_input` outside `1..=5` becomes `None`
(absent, not `Unknown(raw)`) — but it does fail on unknown bitset bits:
a bit outside the declared sets in `available_inputs` or
`available_functions` makes `Source::parse` panic through
`from_bits(..).unwrap()` (only `available_on_me`, whose declared bits
cover the whole byte, accepts everything). -/
theorem c7_inpr_unknown_value_handling
    (i0 i1 : Nat) (nm sn : List Nat)
    (k0 k1 a0 a1 c0 c1 st sk fn me : Nat) (extra : List Nat)
    (hnm : nm.length = 20) (hsn : sn.length = 4)
    (hvn : isValidUtf8 (nm.takeWhile (fun b => b ≠ 0)) = true)
    (hvs : isValidUtf8 (sn.takeWhile (fun b => b ≠ 0)) = true) :
    (∀ v : Nat, (8 ≤ v ∧ v < 128) ∨ 132 ≤ v →
        SourceType.from_u8 v = .unknown v)
    ∧ (∀ v : Nat, v = 0 ∨ 6 ≤ v → Input.from_u16 v = none)
    ∧ ((a0 * 256 + a1) &&& InputFlags.KNOWN = a0 * 256 + a1 →
        fn &&& FunctionFlags.KNOWN = fn →
        me &&& MixEffectFlags.KNOWN = me →
        Source.parse (i0 :: i1 :: (nm ++ (sn ++ (k0 :: k1 :: a0 :: a1 ::
            c0 :: c1 :: st :: sk :: fn :: me :: extra))))
          = some (.ok ⟨i0 * 256 + i1, some (nm.takeWhile (fun b => b ≠ 0)),
              some (sn.takeWhile (fun b => b ≠ 0)), a0 * 256 + a1,
              Input.from_u16 (c0 * 256 + c1), SourceType.from_u8 st,
              fn, me⟩))
    ∧ (∀ b0 b1 : Nat, (b0 * 256 + b1) &&& InputFlags.KNOWN ≠ b0 * 256 + b1 →
        Source.parse (i0 :: i1 :: (nm ++ (sn ++ (k0 :: k1 :: b0 :: b1 ::
            c0 :: c1 :: st :: sk :: fn :: me :: extra))))
          = none)
    ∧ ((a0 * 256 + a1) &&& InputFlags.KNOWN = a0 * 256 + a1 →
        ∀ g : Nat, g &&& FunctionFlags.KNOWN ≠ g →
        Source.parse (i0 :: i1 :: (nm ++ (sn ++ (k0 :: k1 :: a0 :: a1 ::
            c0 :: c1 :: st :: sk :: g :: me :: extra))))
          = none) := by
  refine ⟨?_, ?_, ?_, ?_, ?_⟩
  · intro v hv
    simp only [SourceType.from_u8]
    split_ifs <;> first | rfl | (exfalso; omega)
  · intro v hv
    simp only [Input.from_u16]
    split_ifs <;> first | rfl | (exfalso; omega)
  · intro hin hfn hme
    rw [source_parse_eval i0 i1 nm sn k0 k1 a0 a1 c0 c1 st sk fn me extra
      hnm hsn hvn hvs]
    simp [InputFlags.from_bits, FunctionFlags.from_bits,
      MixEffectFlags.from_bits, hin, hfn, hme]
  · intro b0 b1 hb
    rw [source_parse_eval i0 i1 nm sn k0 k1 b0 b1 c0 c1 st sk fn me extra
      hnm hsn hvn hvs]
    simp [InputFlags.from_bits, hb]
  · intro hin g hg
    rw [source_parse_eval i0 i1 nm sn k0 k1 a0 a1 c0 c1 st sk g me extra
      hnm hsn hvn hvs]
    simp [InputFlags.from_bits, FunctionFlags.from_bits, hin, hg]

/-- **C7** witness: a 36-byte `InPr` body with name "A", short name
"C1", `available_inputs = HDMI`, `active_input = 9` (uncatalogued, so
absent), `source_type = 77` (uncatalogued, kept as `Unknown(77)`),
`available_functions = 3`, `available_on_me = 0xFF` decodes successfully;
flipping `available_inputs` to the unknown bit `0x0200` makes the decode
panic. -/
theorem c7_inpr_unknown_value_handling_witness :
    Source.parse (0 :: 5 ::
        ([65, 0, 0, 0, 0, 0, 0, 0, 0, 0, 0, 0, 0, 0, 0, 0, 0, 0, 0, 0] ++
          ([67, 49, 0, 0] ++
            (0 :: 0 :: 0 :: 2 :: 0 :: 9 :: 77 :: 0 :: 3 :: 255 :: []))))
      = some (.ok ⟨5, some [65], some [67, 49], 2, none,
          .unknown 77, 3, 255⟩)
    ∧ Source.parse (0 :: 5 ::
        ([65, 0, 0, 0, 0, 0, 0, 0, 0, 0, 0, 0, 0, 0, 0, 0, 0, 0, 0, 0] ++
          ([67, 49, 0, 0] ++
            (0 :: 0 :: 2 :: 0 :: 0 :: 9 :: 77 :: 0 :: 3 :: 255 :: []))))
      = none := by
  have h := c7_inpr_unknown_value_handling 0 5
    [65, 0, 0, 0, 0, 0, 0, 0, 0, 0, 0, 0, 0, 0, 0, 0, 0, 0, 0, 0]
    [67, 49, 0, 0] 0 0 0 2 0 9 77 0 3 255 []
    (by decide) (by decide) (by decide) (by decide)
  constructor
  · exact h.2.2.1 (by decide) (by decide) (by decide)
  · exact h.2.2.2.1 2 0 (by decide)

/-- **C7** counterexample: the claim that decoding a full-length `InPr`
body never fails on unrecognized values, with unknown bitset bits
preserved verbatim, is false: the same body with the undeclared bit
`0x0200` set in `available_inputs` makes `Source::parse` panic
(`InputFlags::from_bits(0x0200)` is `None` and is `unwrap`ped), and the
uncatalogued `active_input` value 9 is not retained as `Unknown(9)` but
dropped to `None`. -/
theorem c7_inpr_unknown_value_handling_cex :
    Source.parse (0 :: 5 ::
        ([65, 0, 0, 0, 0, 0, 0, 0, 0, 0, 0, 0, 0, 0, 0, 0, 0, 0, 0, 0] ++
          ([67, 49, 0, 0] ++
            (0 :: 0 :: 2 :: 0 :: 0 :: 9 :: 77 :: 0 :: 3 :: 255 :: []))))
      = none
    ∧ InputFlags.from_bits 0x0200 = none
    ∧ Input.from_u16 9 = none := by
  refine ⟨by decide, by decide, by decide⟩

end Atem
